import Mathlib

/-
Verification development for the telegram-bot content-management console.

The definitions below are a shallow embedding of the bot's JavaScript
source.  JavaScript objects whose keys may be absent are modelled as Lean
structures with Option-typed fields; a JS key that is absent or null is
modelled as none (no claim below distinguishes a null-valued key from a
missing one).  JS string truthiness (null / undefined / "" are falsy) is
modelled by explicit helper functions.  Mutable module-level maps are
threaded explicitly as values.  External collaborators (chat transport,
content-store HTTP API, analytics HTTP API) are modelled by outcome
parameters; their observable calls are recorded as event values.
-/

namespace TB

/-- JavaScript truthiness of an optional string: null/undefined and the
empty string are falsy, every other string is truthy. -/
def jsTruthyStr : Option String → Bool
  | none => false
  | some s => s ≠ ""

/-- JavaScript a-or-b on optional numbers, as in messageId || context.messageId:
null, undefined and 0 are falsy. -/
def jsOrNat : Option Nat → Option Nat → Option Nat
  | some n, b => if n = 0 then b else some n
  | none, b => b

end TB

namespace TB.StateManager

/-- Menu state constant from config/constants.js NAVIGATION.STATES. -/
def MAIN_MENU : String := "main_menu"

/-- Menu state constant from config/constants.js NAVIGATION.STATES. -/
def CONTENT_CATEGORY : String := "content_category"

/-- Menu state constant from config/constants.js NAVIGATION.STATES. -/
def ANALYTICS_CATEGORY : String := "analytics_category"

/-- Menu state constant from config/constants.js NAVIGATION.STATES. -/
def SYSTEM_CATEGORY : String := "system_category"

/-- Menu state constant from config/constants.js NAVIGATION.STATES. -/
def HELP_CATEGORY : String := "help_category"

/-- Navigation context stored under the navigation key of a user state
(stateManager.js initUserState / updateNavigationContext). -/
structure NavContext where
  currentMenu : String
  menuHistory : List String
  breadcrumbs : List String
  messageId : Option Nat
  lastAction : Option String
  lastInteraction : Nat
deriving Repr, DecidableEq

/-- Wizard data object accumulated by the add-case / edit-case
conversations (the data field of a user state).  A field is none when the
corresponding key is absent or was stored as null. -/
structure CaseData where
  id : Option String := none
  title : Option String := none
  desc : Option String := none
  metrics : Option String := none
  tags : Option (List String) := none
  challenge : Option String := none
  approach : Option (List String) := none
  solution : Option String := none
  results : Option (List String) := none
  learnings : Option String := none
deriving Repr, DecidableEq

/-- Per-user state record (stateManager.js).  Every field is Option-typed
because updateUserState can store an arbitrary partial object for a user
that has no state yet. -/
structure UserStateObj where
  command : Option String := none
  currentStep : Option String := none
  data : Option CaseData := none
  startedAt : Option Nat := none
  navigation : Option NavContext := none
deriving Repr, DecidableEq

/-- Empty JS object, as produced by getUserState(userId) || \x7b\x7d. -/
def UserStateObj.empty : UserStateObj := {}

/-- In-memory userStates map (stateManager.js module-level Map). -/
def Store := Nat → Option UserStateObj

/-- Map with no entries. -/
def Store.empty : Store := fun _ => none

/-- userStates.set(userId, v). -/
def Store.set (st : Store) (u : Nat) (v : UserStateObj) : Store :=
  fun x => if x = u then some v else st x

/-- Navigation context created by initUserState and used as the default by
updateNavigationContext when the user has none. -/
def defaultNavContext (now : Nat) : NavContext :=
  { currentMenu := MAIN_MENU
    menuHistory := ["Main Menu"]
    breadcrumbs := ["Main Menu"]
    messageId := none
    lastAction := none
    lastInteraction := now }

/-- stateManager.js initUserState. -/
def initUserState (u : Nat) (now : Nat) (st : Store) : Store :=
  st.set u
    { command := none
      currentStep := none
      data := some {}
      startedAt := some now
      navigation := some (defaultNavContext now) }

/-- stateManager.js getUserState. -/
def getUserState (u : Nat) (st : Store) : Option UserStateObj := st u

/-- stateManager.js hasActiveState: userStates.has(userId). -/
def hasActiveState (u : Nat) (st : Store) : Bool := (st u).isSome

/-- Spread-merge of two user-state objects, as in
userStates.set(userId, \x7b...currentState, ...updates\x7d): keys present in
updates win, keys absent in updates keep the current value. -/
def mergeUserState (cur upd : UserStateObj) : UserStateObj :=
  { command := upd.command <|> cur.command
    currentStep := upd.currentStep <|> cur.currentStep
    data := upd.data <|> cur.data
    startedAt := upd.startedAt <|> cur.startedAt
    navigation := upd.navigation <|> cur.navigation }

/-- stateManager.js updateUserState. -/
def updateUserState (u : Nat) (updates : UserStateObj) (st : Store) : Store :=
  let currentState := (getUserState u st).getD UserStateObj.empty
  st.set u (mergeUserState currentState updates)

/-- stateManager.js clearUserState (userStates.delete). -/
def clearUserState (u : Nat) (st : Store) : Store :=
  fun x => if x = u then none else st x

/-- stateManager.js getNavigationContext: state?.navigation || null. -/
def getNavigationContext (u : Nat) (st : Store) : Option NavContext :=
  (st u).bind (·.navigation)

/-- Partial navigation-context update object; a none field is a key that
the caller's updates object does not contain.  The messageId field is
doubly optional because the key may be present with a null value. -/
structure NavUpdates where
  currentMenu : Option String := none
  menuHistory : Option (List String) := none
  breadcrumbs : Option (List String) := none
  messageId : Option (Option Nat) := none
  lastAction : Option String := none

/-- stateManager.js updateNavigationContext: merge navigationUpdates over
the current (or default) navigation context, stamp lastInteraction, and
store it, preserving the other fields of the user state. -/
def updateNavigationContext (u : Nat) (upd : NavUpdates) (now : Nat) (st : Store) : Store :=
  let currentState := (getUserState u st).getD UserStateObj.empty
  let currentNavigation := currentState.navigation.getD (defaultNavContext now)
  let merged : NavContext :=
    { currentMenu := upd.currentMenu.getD currentNavigation.currentMenu
      menuHistory := upd.menuHistory.getD currentNavigation.menuHistory
      breadcrumbs := upd.breadcrumbs.getD currentNavigation.breadcrumbs
      messageId := upd.messageId.getD currentNavigation.messageId
      lastAction := upd.lastAction <|> currentNavigation.lastAction
      lastInteraction := now }
  st.set u { currentState with navigation := some merged }

/-- stateManager.js navigateToMenu: push the title onto menuHistory and
breadcrumbs only when it differs from the current top of menuHistory. -/
def navigateToMenu (u : Nat) (menuState menuTitle : String) (messageId : Option Nat)
    (now : Nat) (st : Store) : Store :=
  let context := getNavigationContext u st
  let menuHistory0 := (context.map (·.menuHistory)).getD ["Main Menu"]
  let breadcrumbs0 := (context.map (·.breadcrumbs)).getD ["Main Menu"]
  let push := menuHistory0.getLast? ≠ some menuTitle
  let menuHistory := if push then menuHistory0 ++ [menuTitle] else menuHistory0
  let breadcrumbs := if push then breadcrumbs0 ++ [menuTitle] else breadcrumbs0
  updateNavigationContext u
    { currentMenu := some menuState
      menuHistory := some menuHistory
      breadcrumbs := some breadcrumbs
      messageId := some (jsOrNat messageId (context.bind (·.messageId)))
      lastAction := some ("navigate_to_" ++ menuState) } now st

/-- Return value of navigateBack. -/
structure BackResult where
  state : String
  title : Option String
  history : List String
  breadcrumbs : List String
deriving Repr, DecidableEq

/-- stateManager.js navigateBack: pop the stack when its length exceeds 1,
map the new top title back to a menu state, and report the previous menu;
return null (modelled none) when already at the root. -/
def navigateBack (u : Nat) (now : Nat) (st : Store) : Option BackResult × Store :=
  match getNavigationContext u st with
  | none => (none, st)
  | some context =>
    if context.menuHistory.length ≤ 1 then (none, st)
    else
      let menuHistory := context.menuHistory.dropLast
      let breadcrumbs := context.breadcrumbs.dropLast
      let previousMenu := menuHistory.getLast?
      let previousMenuState :=
        if previousMenu = some "Content Management" then CONTENT_CATEGORY
        else if previousMenu = some "Analytics" then ANALYTICS_CATEGORY
        else if previousMenu = some "System Tools" then SYSTEM_CATEGORY
        else if previousMenu = some "Help & Info" then HELP_CATEGORY
        else MAIN_MENU
      let st' := updateNavigationContext u
        { currentMenu := some previousMenuState
          menuHistory := some menuHistory
          breadcrumbs := some breadcrumbs
          lastAction := some ("navigate_back_to_" ++ previousMenuState) } now st
      (some { state := previousMenuState, title := previousMenu,
              history := menuHistory, breadcrumbs := breadcrumbs }, st')

/-- stateManager.js isInActiveWorkflow: state && (state.command || state.currentStep). -/
def isInActiveWorkflow (u : Nat) (st : Store) : Bool :=
  match st u with
  | none => false
  | some s => jsTruthyStr s.command || jsTruthyStr s.currentStep

/-- Single call of the navigation state machine: enterMenu (navigateToMenu)
or goBack (navigateBack), with the wall-clock instant of the call. -/
inductive NavOp where
  | enter (menuState menuTitle : String) (messageId : Option Nat) (now : Nat)
  | back (now : Nat)

/-- Apply one navigation call for user u. -/
def applyNavOp (u : Nat) (st : Store) : NavOp → Store
  | .enter ms t m n => navigateToMenu u ms t m n st
  | .back n => (navigateBack u n st).2

/-- Apply a sequence of navigation calls for user u. -/
def applyNavOps (u : Nat) (ops : List NavOp) (st : Store) : Store :=
  ops.foldl (applyNavOp u) st

/-- Stack invariant of the claim: the user has a navigation context whose
menuHistory and breadcrumbs agree in length, are non-empty, and whose
menuHistory starts with "Main Menu". -/
def navStackInvariant (u : Nat) (st : Store) : Prop :=
  ∃ c, getNavigationContext u st = some c ∧
    c.menuHistory.length = c.breadcrumbs.length ∧
    1 ≤ c.menuHistory.length ∧
    c.menuHistory.head? = some "Main Menu"

end TB.StateManager

namespace TB

/-- JavaScript a-or-b on strings, as in data.title || defaultValue: null,
undefined and the empty string are falsy. -/
def jsOrStr (a : Option String) (d : String) : String :=
  match a with
  | some s => if s = "" then d else s
  | none => d

/-- Left-to-right scan for an occurrence of needle in hay. -/
def hasSubstrAux (needle : List Char) : List Char → Bool
  | [] => needle.isEmpty
  | c :: rest => needle.isPrefixOf (c :: rest) || hasSubstrAux needle rest

/-- Substring test, as in JavaScript String.prototype.includes. -/
def hasSubstr (needle hay : String) : Bool :=
  hasSubstrAux needle.data hay.data

end TB

namespace TB.Content

/-- Entry of content.GLOBAL_DATA.case_studies.  Fields are Option-typed
because pre-existing documents may carry null or missing fields; the bot
itself writes plain strings. -/
structure CaseStudyEntry where
  title : Option String := none
  desc : Option String := none
  metrics : Option String := none
  tags : Option (List String) := none
deriving Repr, DecidableEq

/-- Entry of content.GLOBAL_DATA.case_details. -/
structure CaseDetailsEntry where
  challenge : Option String := none
  approach : Option (List String) := none
  solution : Option String := none
  results : Option (List String) := none
  learnings : Option String := none
deriving Repr, DecidableEq

/-- The GLOBAL_DATA section of the content document. -/
structure GlobalData where
  case_studies : Option (List (String × CaseStudyEntry)) := none
  case_details : Option (List (String × CaseDetailsEntry)) := none
deriving Repr, DecidableEq

/-- Meta section of a profile. -/
structure Meta where
  company : Option String := none
deriving Repr, DecidableEq

/-- A personalised profile of the content document. -/
structure Profile where
  meta : Option Meta := none
deriving Repr, DecidableEq

/-- The content.json document: profile entries keyed by access code plus
the GLOBAL_DATA section (modelled as a separate field of the same
object). -/
structure Content where
  profiles : List (String × Profile) := []
  GLOBAL_DATA : Option GlobalData := none
deriving Repr, DecidableEq

/-- JavaScript property assignment m[k] = v on an object modelled as an
association list: replace in place when the key exists, append
otherwise. -/
def setEntry {α : Type} (m : List (String × α)) (k : String) (v : α) : List (String × α) :=
  if m.any (fun p => p.1 = k) then m.map (fun p => if p.1 = k then (k, v) else p)
  else m ++ [(k, v)]

/-- Modelled from the spec: utils/validators.js is not under src.  Per the
spec ("validated against an id-format rule (lowercase letters/digits/underscore
only)") and the repository's unit tests, isValidCaseId accepts exactly the
nonempty strings of lowercase Latin letters, digits and underscores. -/
def isValidCaseId (s : String) : Bool :=
  s ≠ "" && s.data.all (fun ch => (ch.isLower && ch.isAlpha) || ch.isDigit || ch = '_')

/-- Modelled from the spec: utils/validators.js is not under src.  Per the
spec and the repository's unit tests, caseExists checks whether the id is a
key of content.GLOBAL_DATA.case_studies, returning false when that
structure is missing. -/
def caseExists (c : Content) (id : String) : Bool :=
  match c.GLOBAL_DATA with
  | none => false
  | some g =>
    match g.case_studies with
    | none => false
    | some m => m.any (fun p => p.1 = id)

/-- Modelled from the spec: utils/validators.js is not under src.  Per the
spec ("parsed by splitting on comma (default) or caller-specified
delimiter, trimming, and dropping empty entries") and the repository's
unit tests, parseArrayInput splits, trims, and drops empties; null input
gives the empty list. -/
def parseArrayInput (s : Option String) (delim : String) : List String :=
  match s with
  | none => []
  | some str => ((str.splitOn delim).map String.trim).filter (fun x => x ≠ "")

end TB.Content

namespace TB.Analytics

open TB.Content

/-- Element of a Matomo customDimensions array. -/
structure CustomDimEntry where
  idDimension : Option String := none
  value : Option String := none
deriving Repr, DecidableEq

/-- The customDimensions field of a visit: Matomo may deliver it as an
array of dimension entries or as a plain object mapping names to string
values; analytics.js probes both shapes. -/
inductive CustomDims where
  | arr (entries : List CustomDimEntry)
  | obj (entries : List (String × String))
deriving Repr, DecidableEq

/-- Value of one entry of a Matomo customVariables object. -/
structure CustomVarData where
  customVariableValue1 : Option String := none
deriving Repr, DecidableEq

/-- A Matomo event record attached to a visit. -/
structure MatomoEvent where
  eventCategory : Option String := none
  eventAction : Option String := none
  eventName : Option String := none
deriving Repr, DecidableEq

/-- One entry of a visit's actionDetails array. -/
structure ActionDetail where
  type : Option String := none
  url : Option String := none
  pageTitle : Option String := none
deriving Repr, DecidableEq

/-- A visit record returned by the analytics API, with the fields the
monitor inspects.  serverTimestamp is in the API's clock units. -/
structure Visit where
  idVisit : Nat
  dimension1 : Option String := none
  customDimensions : Option CustomDims := none
  customVariables : Option (List (String × CustomVarData)) := none
  userId : Option String := none
  url : Option String := none
  actionDetails : Option (List ActionDetail) := none
  events : Option (List MatomoEvent) := none
  serverTimestamp : Option Nat := none
deriving Repr, DecidableEq

/-- First capture of the regular expression [?&]code=([^&#]+) scanned over
a character list: at each position, a ? or & followed by code= and at
least one character outside &# yields the maximal such run; otherwise the
scan continues one character to the right. -/
def matchCodeParam : List Char → Option String
  | [] => none
  | c :: rest =>
    if (c = '?' || c = '&') && rest.take 5 = ['c', 'o', 'd', 'e', '='] then
      let cap := (rest.drop 5).takeWhile (fun ch => ch ≠ '&' && ch ≠ '#')
      if cap.isEmpty then matchCodeParam rest else some (String.mk cap)
    else matchCodeParam rest

/-- Regex match [?&]code=([^&#]+) on a string, capture group 1. -/
def matchCodeParamStr (s : String) : Option String :=
  matchCodeParam s.data

/-- services/matomo.js extractAccessCode: custom dimension with
idDimension "1" when customDimensions is an array, else the code= query
parameter of the first action whose url contains the substring code=. -/
def extractAccessCode (v : Visit) : Option String :=
  let fromDims : Option String :=
    match v.customDimensions with
    | some (.arr entries) =>
      match entries.find? (fun d => d.idDimension = some "1") with
      | some d => if TB.jsTruthyStr d.value then d.value else none
      | none => none
    | _ => none
  match fromDims with
  | some s => some s
  | none =>
    match (v.actionDetails.getD []).find?
        (fun a => TB.jsTruthyStr a.url && TB.hasSubstr "code=" (a.url.getD "")) with
    | some a => matchCodeParamStr (a.url.getD "")
    | none => none

/-- Value returned by the enhanced access-code extraction: normally a
string, but the customDimensions-array probe of method 3 can return a raw
dimension-entry object (JavaScript duck typing). -/
inductive AccessVal where
  | str (s : String)
  | dimEntry (e : CustomDimEntry)
deriving Repr, DecidableEq

/-- JavaScript truthiness of the extraction result: null/undefined and the
empty string are falsy, any object is truthy. -/
def jsTruthyAccess : Option AccessVal → Bool
  | none => false
  | some (.str s) => s ≠ ""
  | some (.dimEntry _) => true

/-- JavaScript object-to-property-key coercion used when the extraction
result indexes the content document. -/
def keyOfAccessVal : AccessVal → String
  | .str s => s
  | .dimEntry _ => "[object Object]"

/-- analytics.js extractAccessCodeEnhanced, method 3: probe
customDimensions.dimension1, then the first non-empty entry value;
Object.entries of an array form yields its element objects. -/
def enhancedMethod3 (v : Visit) : Option AccessVal :=
  match v.customDimensions with
  | none => none
  | some (.arr entries) => entries.head?.map .dimEntry
  | some (.obj entries) =>
    match entries.lookup "dimension1" with
    | some dv =>
      if dv ≠ "" then some (.str dv)
      else (entries.find? (fun p => p.2 ≠ "")).map (fun p => .str p.2)
    | none => (entries.find? (fun p => p.2 ≠ "")).map (fun p => .str p.2)

/-- analytics.js extractAccessCodeEnhanced, method 4: first customVariables
entry with a truthy customVariableValue1. -/
def enhancedMethod4 (v : Visit) : Option AccessVal :=
  match v.customVariables with
  | none => none
  | some vars =>
    (vars.find? (fun p => TB.jsTruthyStr p.2.customVariableValue1)).bind
      (fun p => p.2.customVariableValue1.map .str)

/-- analytics.js extractAccessCodeEnhanced, method 7: scan every action url
for a code= query parameter. -/
def enhancedMethod7 (v : Visit) : Option AccessVal :=
  match v.actionDetails with
  | none => none
  | some actions =>
    ((actions.filterMap (fun a =>
        if TB.jsTruthyStr a.url then matchCodeParamStr (a.url.getD "") else none)).head?).map .str

/-- analytics.js extractAccessCodeEnhanced, method 8: eventName of the
first Authentication/AccessCode event. -/
def enhancedMethod8 (v : Visit) : Option AccessVal :=
  match v.events with
  | none => none
  | some evs =>
    ((evs.find? (fun e => e.eventCategory = some "Authentication" &&
        e.eventAction = some "AccessCode")).bind (fun e => e.eventName)).map .str

/-- analytics.js extractAccessCodeEnhanced: ordered fallback chain over
the original extractor, dimension1, customDimensions, customVariables,
userId, the url query parameter, every action url, and Authentication
events. -/
def extractAccessCodeEnhanced (v : Visit) : Option AccessVal :=
  let m1 : Option AccessVal :=
    match extractAccessCode v with
    | some s => if s ≠ "" && s ≠ "Anonymous" then some (.str s) else none
    | none => none
  (m1 <|>
    (if TB.jsTruthyStr v.dimension1 then v.dimension1.map .str else none) <|>
    enhancedMethod3 v <|>
    enhancedMethod4 v <|>
    (if TB.jsTruthyStr v.userId then v.userId.map .str else none) <|>
    (if TB.jsTruthyStr v.url then (matchCodeParamStr (v.url.getD "")).map .str else none) <|>
    enhancedMethod7 v <|>
    enhancedMethod8 v)

/-- Screen-name to display-title table of services/matomo.js
extractVisitedPages. -/
def screenTitles : List (String × String) :=
  [("Entry", "Entry - Authentication"),
   ("MainHub", "Main Hub - Navigation"),
   ("Introduction", "Introduction - About Me"),
   ("Timeline", "Timeline - Experience"),
   ("RoleDetail", "Role Detail"),
   ("CaseList", "Case Studies - List"),
   ("CaseDetail", "Case Study - Detail"),
   ("SkillsGrid", "Skills - Overview"),
   ("SkillDetail", "Skill - Detail"),
   ("SideProjects", "Side Projects"),
   ("Contact", "Contact Information")]

/-- First capture of the regular expression hash-mark followed by one or
more characters outside ampersand, question mark and whitespace, scanned
left to right with continuation on failed positions. -/
def matchHashParam : List Char → Option String
  | [] => none
  | c :: rest =>
    if c = '#' then
      let cap := rest.takeWhile (fun ch => ch ≠ '&' && ch ≠ '?' && !ch.isWhitespace)
      if cap.isEmpty then matchHashParam rest else some (String.mk cap)
    else matchHashParam rest

/-- Page-name resolution of services/matomo.js extractVisitedPages for one
qualifying action: meaningful page title, else url hash via the screen
table, else the entry page for a code= url, else any page title, else
"Unknown Page". -/
def pageNameOf (a : ActionDetail) : String :=
  let urlStr := a.url.getD ""
  if TB.jsTruthyStr a.pageTitle && !TB.hasSubstr "Undevy Portfolio" (a.pageTitle.getD "") then
    a.pageTitle.getD ""
  else if TB.hasSubstr "#" urlStr then
    match matchHashParam urlStr.data with
    | some screenName => TB.jsOrStr (screenTitles.lookup screenName) screenName
    | none => "Unknown Page"
  else if TB.hasSubstr "?code=" urlStr && !TB.hasSubstr "#" urlStr then
    "Entry - Authentication"
  else if TB.jsTruthyStr a.pageTitle then
    a.pageTitle.getD ""
  else "Unknown Page"

/-- Drop of every element equal to its predecessor in the original list,
as in the index-based filter of extractVisitedPages. -/
def dropConsecutive (l : List String) : List String :=
  (l.zip (none :: l.map some)).filterMap
    (fun p => if p.2 = some p.1 then none else some p.1)

/-- services/matomo.js extractVisitedPages: collect page views (type
"action" with a truthy url), skip an action repeating the previous url,
resolve page names, then drop consecutive duplicate names. -/
def extractVisitedPages (v : Visit) : List String :=
  match v.actionDetails with
  | none => []
  | some actions =>
    let pages := actions.foldl
      (fun (pages : List (String × String)) a =>
        if !(a.type = some "action") || !TB.jsTruthyStr a.url then pages
        else if pages.getLast?.map (fun p => p.2) = some (a.url.getD "") then pages
        else pages ++ [(pageNameOf a, a.url.getD "")]) []
    dropConsecutive (pages.map (fun p => p.1))

/-- JavaScript runtime errors observable from the monitor. -/
inductive JsError where
  | referenceError (name : String)
deriving Repr, DecidableEq

/-- Identifiers bound in the module scope of analytics.js: its top-level
require destructurings and the class declaration.  ENABLE_ANALYTICS is not
among them; analytics.js does not import it (and config/constants.js does
not even export such a key). -/
def analyticsModuleBindings : List String :=
  ["ANALYTICS_CHECK_INTERVAL", "EMOJI", "escapeMarkdown", "getContent",
   "getRecentVisits", "extractAccessCode", "extractVisitedPages",
   "formatVisitData", "AnalyticsMonitor"]

/-- Value of the identifier ENABLE_ANALYTICS as visible inside
analytics.js start(): none because the name is not bound in that module's
scope (see analyticsModuleBindings). -/
def enableAnalyticsBinding : Option Bool :=
  if "ENABLE_ANALYTICS" ∈ analyticsModuleBindings then some false else none

/-- Evaluation of the identifier ENABLE_ANALYTICS in analytics.js:
reading an undeclared identifier throws a ReferenceError. -/
def resolveEnableAnalytics : Except JsError Bool :=
  match enableAnalyticsBinding with
  | some b => Except.ok b
  | none => Except.error (JsError.referenceError "ENABLE_ANALYTICS")

/-- Statistics record of the monitor (analytics.js constructor). -/
structure MonitorStats where
  checksPerformed : Nat := 0
  notificationsSent : Nat := 0
  lastCheckTime : Nat
  errors : Nat := 0
deriving Repr, DecidableEq

/-- Process-wide state of the AnalyticsMonitor instance. -/
structure MonitorState where
  notifiedVisitIds : List Nat := []
  isRunning : Bool := false
  timerSet : Bool := false
  stats : MonitorStats
deriving Repr, DecidableEq

/-- analytics.js constructor: empty notified set, stopped, lastCheckTime
one hour before construction. -/
def AnalyticsMonitor.init (now : Nat) : MonitorState :=
  { notifiedVisitIds := []
    isRunning := false
    timerSet := false
    stats := { lastCheckTime := now - 60 * 60 * 1000 } }

/-- analytics.js start(): the first executed statement evaluates
!ENABLE_ANALYTICS, whose identifier does not resolve in the module scope;
the intended two-state logic (no-op when disabled or already running, else
mark running, check immediately and schedule the interval) sits behind
that evaluation. -/
def AnalyticsMonitor.start (s : MonitorState) : Except JsError MonitorState :=
  match resolveEnableAnalytics with
  | Except.error e => Except.error e
  | Except.ok enabled =>
    if !enabled then Except.ok s
    else if s.isRunning then Except.ok s
    else Except.ok { s with isRunning := true, timerSet := true }

/-- analytics.js stop(): no-op when already stopped, else clear the timer
and mark stopped. -/
def AnalyticsMonitor.stop (s : MonitorState) : MonitorState :=
  if !s.isRunning then s
  else { s with isRunning := false, timerSet := false }

/-- One notification attempt recorded by the model: the visit it was for,
whether it used the anonymous-visit message, and whether the transport
delivered it. -/
structure Sent where
  visitId : Nat
  anonymous : Bool
  delivered : Bool
deriving Repr, DecidableEq

/-- Company lookup of checkVisits: content[accessCode].meta?.company with
"Unknown Company" on any miss. -/
def companyFor (content : Option Content) (code : AccessVal) : String :=
  match content with
  | none => "Unknown Company"
  | some c =>
    match c.profiles.lookup (keyOfAccessVal code) with
    | some p => TB.jsOrStr (p.meta.bind (fun m => m.company)) "Unknown Company"
    | none => "Unknown Company"

/-- Loop body of checkVisits over one visit: skip ids already notified,
otherwise mark notified immediately, then send an anonymous notification
when no access code was extracted, silently skip zero-page visits with a
code, and otherwise send the company notification; a failed send is
recorded but changes nothing else. -/
def processVisit (content : Option Content) (sendOk : Nat → Bool)
    (acc : MonitorState × List Sent) (v : Visit) : MonitorState × List Sent :=
  let s := acc.1
  let sent := acc.2
  if v.idVisit ∈ s.notifiedVisitIds then (s, sent)
  else
    let accessCode := extractAccessCodeEnhanced v
    let visitedPages := extractVisitedPages v
    let s := { s with notifiedVisitIds := s.notifiedVisitIds ++ [v.idVisit] }
    if !jsTruthyAccess accessCode then
      if sendOk v.idVisit then
        ({ s with stats := { s.stats with notificationsSent := s.stats.notificationsSent + 1 } },
          sent ++ [{ visitId := v.idVisit, anonymous := true, delivered := true }])
      else
        (s, sent ++ [{ visitId := v.idVisit, anonymous := true, delivered := false }])
    else if visitedPages.length = 0 then (s, sent)
    else
      let _companyName := companyFor content
        ((accessCode).getD (AccessVal.str ""))
      if sendOk v.idVisit then
        ({ s with stats := { s.stats with notificationsSent := s.stats.notificationsSent + 1 } },
          sent ++ [{ visitId := v.idVisit, anonymous := false, delivered := true }])
      else
        (s, sent ++ [{ visitId := v.idVisit, anonymous := false, delivered := false }])

/-- Cleanup step of checkVisits: when more than 1000 ids are notified keep
the most recently added 1000. -/
def truncateNotified (l : List Nat) : List Nat :=
  if l.length > 1000 then l.drop (l.length - 1000) else l

/-- services/matomo.js getRecentVisits: the HTTP fetch itself is an
external collaborator whose response is the matomoVisits parameter; when
both bounds are given the source keeps the visits of the CLOSED interval
(return ts >= since && ts <= until on v.serverTimestamp). -/
def getRecentVisits (matomoVisits : List Visit) (sinceT upToT : Nat) : List Visit :=
  matomoVisits.filter
    (fun v => sinceT ≤ v.serverTimestamp.getD 0 && v.serverTimestamp.getD 0 ≤ upToT)

/-- Outcome parameters of one checkVisits run: the wall-clock instant, the
success of the two upstream calls, the content document, and the transport
outcomes. -/
structure PollEnv where
  now : Nat
  fetchOk : Bool
  contentOk : Bool
  content : Option Content
  sendOk : Nat → Bool
  adminSendOk : Bool

/-- Catch handler of checkVisits: bump the error counter; past 5 errors
try one consolidated admin warning and reset the counter when it is
delivered. -/
def catchBranch (adminSendOk : Bool) (s : MonitorState) (sent : List Sent) :
    MonitorState × List Sent × Bool :=
  let s := { s with stats := { s.stats with errors := s.stats.errors + 1 } }
  if s.stats.errors > 5 then
    if adminSendOk then
      ({ s with stats := { s.stats with errors := 0 } }, sent, true)
    else (s, sent, false)
  else (s, sent, false)

/-- analytics.js checkVisits: bump checksPerformed, fetch the window since
lastCheckTime, advance lastCheckTime only after a successful fetch, load
the content document, process each visit, truncate the notified set; any
exception goes to the catch handler.  The result carries the visit
notifications attempted and whether an admin warning was sent. -/
def checkVisits (matomoVisits : List Visit) (env : PollEnv) (s : MonitorState) :
    MonitorState × List Sent × Bool :=
  let checkStartTime := env.now
  let s := { s with stats := { s.stats with checksPerformed := s.stats.checksPerformed + 1 } }
  if !env.fetchOk then catchBranch env.adminSendOk s []
  else
    let visits := getRecentVisits matomoVisits s.stats.lastCheckTime checkStartTime
    let s := { s with stats := { s.stats with lastCheckTime := checkStartTime } }
    if !env.contentOk then catchBranch env.adminSendOk s []
    else
      let folded := visits.foldl (processVisit env.content env.sendOk) (s, [])
      let s2 := { folded.1 with notifiedVisitIds := truncateNotified folded.1.notifiedVisitIds }
      (s2, folded.2, false)

/-- Sequence of checkVisits runs, accumulating every notification
attempt. -/
def runChecks (matomoVisits : List Visit) : List PollEnv → MonitorState → MonitorState × List Sent
  | [], s => (s, [])
  | e :: rest, s =>
    let r := checkVisits matomoVisits e s
    let rr := runChecks matomoVisits rest r.1
    (rr.1, r.2.1 ++ rr.2)

end TB.Analytics

namespace TB.Analytics

/-- Property verified for claim C10 about a check whose visit fetch
succeeds but whose content load throws: the check attempts no visit
notification, adds no ids to the notified set, has already advanced
lastCheckTime to the check start, bumps checksPerformed, enters the error
handler (error counter bumped, or reset after the over-5 admin warning),
and among the visits of the lost window those whose timestamp is strictly
before the failed check's start are never notified by any later sequence
of checks whose clocks are at or past that start (a visit timestamped
exactly at the check's start stays inside the next closed fetch window
and can still be notified: see the claim's counterexample). -/
def failedContentLoadOutcome (mv : List Visit) (env : PollEnv) (s : MonitorState) : Prop :=
  (checkVisits mv env s).2.1 = [] ∧
  (checkVisits mv env s).1.notifiedVisitIds = s.notifiedVisitIds ∧
  (checkVisits mv env s).1.stats.lastCheckTime = env.now ∧
  (checkVisits mv env s).1.stats.checksPerformed = s.stats.checksPerformed + 1 ∧
  ((checkVisits mv env s).1.stats.errors = s.stats.errors + 1 ∨
    (5 < s.stats.errors + 1 ∧ env.adminSendOk = true ∧
      (checkVisits mv env s).1.stats.errors = 0)) ∧
  ∀ envs : List PollEnv, (∀ e ∈ envs, env.now ≤ e.now) →
    ∀ v ∈ getRecentVisits mv s.stats.lastCheckTime env.now,
      v.serverTimestamp.getD 0 < env.now →
      ∀ snt ∈ (runChecks mv envs (checkVisits mv env s).1).2, snt.visitId ≠ v.idVisit

end TB.Analytics

namespace TB.Callbacks

/-- Result of config/constants.js NavigationHelpers.parseCallback:
split the token on underscores; segment 0 is the type, segment 1 (possibly
missing) the action, the remaining segments the data. -/
structure ParsedCallback where
  type : String
  action : Option String
  data : List String
deriving Repr, DecidableEq

/-- config/constants.js NavigationHelpers.generateCallback: join the type
and the parts with underscores. -/
def generateCallback (type : String) (parts : List String) : String :=
  String.intercalate "_" (type :: parts)

/-- Character-level splitter implementing JavaScript
String.prototype.split with a single-character separator (structurally
recursive so that concrete tokens evaluate). -/
def splitUnderscoreAux (acc : List Char) : List Char → List String
  | [] => [String.mk acc.reverse]
  | c :: rest =>
    if c = '_' then String.mk acc.reverse :: splitUnderscoreAux [] rest
    else splitUnderscoreAux (c :: acc) rest

/-- JavaScript callbackData.split of the underscore delimiter. -/
def splitUnderscore (s : String) : List String :=
  splitUnderscoreAux [] s.data

/-- config/constants.js NavigationHelpers.parseCallback. -/
def parseCallback (callbackData : String) : ParsedCallback :=
  let parts := splitUnderscore callbackData
  { type := parts.getD 0 ""
    action := parts.get? 1
    data := parts.drop 2 }

/-- Observable decision of the confirmation flow: which confirmed action is
executed (and with which target id), or cancellation via back
navigation.  The surrounding effects (answerCallbackQuery, clearUserState,
menu rendering) are collaborator calls that carry no decision. -/
inductive ConfDecision where
  | executeDelete (caseId : String)
  | executeEdit (caseId : String)
  | executePreview (caseId : String)
  | executeAction (category action : Option String)
  | cancelled
deriving Repr, DecidableEq

/-- handlers/actionHandlers.js executeConfirmedAction: re-parse the
callback, take the data past the first two entries as additional context,
and route delete/edit/preview with that context's first entry as the case
id, everything else to the generic action executor. -/
def executeConfirmedAction (callbackData : String) (category action : Option String) :
    ConfDecision :=
  let parsed := parseCallback callbackData
  let additionalData := parsed.data.drop 2
  if action = some "delete" && additionalData.length > 0 then
    ConfDecision.executeDelete (additionalData.getD 0 "")
  else if action = some "edit" && additionalData.length > 0 then
    ConfDecision.executeEdit (additionalData.getD 0 "")
  else if action = some "preview" && additionalData.length > 0 then
    ConfDecision.executePreview (additionalData.getD 0 "")
  else
    ConfDecision.executeAction category action

/-- handlers/actionHandlers.js handleConfirmationCallback: destructure
category, action and confirmType from parsed.data; execute on confirmType
"confirm", otherwise treat as cancellation and navigate back. -/
def handleConfirmationCallback (callbackData : String) : ConfDecision :=
  let parsed := parseCallback callbackData
  let category := parsed.data.get? 0
  let action := parsed.data.get? 1
  let confirmType := parsed.data.get? 2
  if confirmType = some "confirm" then
    executeConfirmedAction callbackData category action
  else
    ConfDecision.cancelled

end TB.Callbacks

namespace TB.Conversations

open TB.StateManager
open TB.Content

/-- Step constant from stateManager.js ADD_CASE_STATES. -/
def ADD_WAITING_ID : String := "waiting_id"

/-- Step constant from stateManager.js ADD_CASE_STATES. -/
def ADD_WAITING_TITLE : String := "waiting_title"

/-- Step constant from stateManager.js ADD_CASE_STATES. -/
def ADD_WAITING_DESC : String := "waiting_desc"

/-- Step constant from stateManager.js ADD_CASE_STATES. -/
def ADD_WAITING_METRICS : String := "waiting_metrics"

/-- Step constant from stateManager.js ADD_CASE_STATES. -/
def ADD_WAITING_TAGS : String := "waiting_tags"

/-- Step constant from stateManager.js ADD_CASE_STATES. -/
def ADD_WAITING_CHALLENGE : String := "waiting_challenge"

/-- Step constant from stateManager.js ADD_CASE_STATES. -/
def ADD_WAITING_APPROACH : String := "waiting_approach"

/-- Step constant from stateManager.js ADD_CASE_STATES. -/
def ADD_WAITING_SOLUTION : String := "waiting_solution"

/-- Step constant from stateManager.js ADD_CASE_STATES. -/
def ADD_WAITING_RESULTS : String := "waiting_results"

/-- Step constant from stateManager.js ADD_CASE_STATES. -/
def ADD_WAITING_LEARNINGS : String := "waiting_learnings"

/-- Step constant from stateManager.js EDIT_CASE_STATES. -/
def EDIT_WAITING_TITLE : String := "waiting_title_edit"

/-- Step constant from stateManager.js EDIT_CASE_STATES. -/
def EDIT_WAITING_DESC : String := "waiting_desc_edit"

/-- Step constant from stateManager.js EDIT_CASE_STATES. -/
def EDIT_WAITING_METRICS : String := "waiting_metrics_edit"

/-- Step constant from stateManager.js EDIT_CASE_STATES. -/
def EDIT_WAITING_TAGS : String := "waiting_tags_edit"

/-- Step constant from stateManager.js EDIT_CASE_STATES. -/
def EDIT_WAITING_CHALLENGE : String := "waiting_challenge_edit"

/-- Step constant from stateManager.js EDIT_CASE_STATES. -/
def EDIT_WAITING_APPROACH : String := "waiting_approach_edit"

/-- Step constant from stateManager.js EDIT_CASE_STATES. -/
def EDIT_WAITING_SOLUTION : String := "waiting_solution_edit"

/-- Step constant from stateManager.js EDIT_CASE_STATES. -/
def EDIT_WAITING_RESULTS : String := "waiting_results_edit"

/-- Step constant from stateManager.js EDIT_CASE_STATES. -/
def EDIT_WAITING_LEARNINGS : String := "waiting_learnings_edit"

/-- Characters escaped by utils/format.js escapeMarkdown (the MarkdownV2
special characters; tilde, backquote and the braces written by code
point). -/
def mdSpecialChars : List Char :=
  ['_', '*', '[', ']', '(', ')', '~', Char.ofNat 96, '>', '#', '+', '-', '=', '|',
   Char.ofNat 123, Char.ofNat 125, '.', '!']

/-- utils/format.js escapeMarkdown: empty string for null/undefined, else
prefix every MarkdownV2 special character with a backslash. -/
def escapeMarkdown (s : Option String) : String :=
  match s with
  | none => ""
  | some str =>
    String.mk (str.data.foldr
      (fun c acc => if c ∈ mdSpecialChars then '\\' :: c :: acc else c :: acc) [])

/-- Text of the conversation catch handler's reply:
EMOJI.ERROR Error: escaped message. -/
def errorReplyText (msg : String) : String :=
  "❌ Error: " ++ escapeMarkdown (some msg)

/-- Observable collaborator calls made while processing one conversation
message. -/
inductive Event where
  | reply (text : String)
  | progress (workflow : String) (currentStep totalSteps : Nat) (message : String)
  | backupCall (c : Content)
  | updateContentCall (c : Content)
  | successMenu (operation : String) (caseId : String)
deriving Repr, DecidableEq

/-- Outcomes of the external collaborator calls a conversation step can
make; an error value is an exception thrown by that call. -/
structure ConvEnv where
  getContent : Except String Content
  createBackup : Except String Unit
  updateContent : Except String Unit
  showProgress : Except String Unit
  showSuccess : Except String Unit
  reply : Except String Unit

/-- Result of processing one conversation message: the stored user map
afterwards, the collaborator calls made, the handler's boolean return, and
the message of the exception the catch handler reported (none when no
exception was raised). -/
structure ConvResult where
  store : Store
  events : List Event
  handled : Bool
  caught : Option String

/-- Scalar wizard fields written through handleGenericStep or the
edit-case scalar steps. -/
inductive ScalarKey where
  | title
  | desc
  | metrics
  | challenge
  | solution
  | learnings
deriving Repr, DecidableEq

/-- Assignment state.data[key] = v for a scalar key. -/
def setScalar (d : CaseData) : ScalarKey → Option String → CaseData
  | ScalarKey.title, v => { d with title := v }
  | ScalarKey.desc, v => { d with desc := v }
  | ScalarKey.metrics, v => { d with metrics := v }
  | ScalarKey.challenge, v => { d with challenge := v }
  | ScalarKey.solution, v => { d with solution := v }
  | ScalarKey.learnings, v => { d with learnings := v }

/-- Step-number table of handlers/conversations.js handleGenericStep and
promptNext (stepNumbers[nextStep] || 1). -/
def stepNumbersAdd (step : String) : Nat :=
  if step = ADD_WAITING_ID then 1
  else if step = ADD_WAITING_TITLE then 2
  else if step = ADD_WAITING_DESC then 3
  else if step = ADD_WAITING_METRICS then 4
  else if step = ADD_WAITING_TAGS then 5
  else if step = ADD_WAITING_CHALLENGE then 6
  else if step = ADD_WAITING_APPROACH then 7
  else if step = ADD_WAITING_SOLUTION then 8
  else if step = ADD_WAITING_RESULTS then 9
  else if step = ADD_WAITING_LEARNINGS then 10
  else 1

/-- Step-number table of handlers/conversations.js promptNextEdit
(editStepNumbers[nextStep] || 1). -/
def stepNumbersEdit (step : String) : Nat :=
  if step = "waiting_case_id_to_edit" then 1
  else if step = EDIT_WAITING_TITLE then 2
  else if step = EDIT_WAITING_DESC then 3
  else if step = EDIT_WAITING_METRICS then 4
  else if step = EDIT_WAITING_TAGS then 5
  else if step = EDIT_WAITING_CHALLENGE then 6
  else if step = EDIT_WAITING_APPROACH then 7
  else if step = EDIT_WAITING_SOLUTION then 8
  else if step = EDIT_WAITING_RESULTS then 9
  else if step = EDIT_WAITING_LEARNINGS then 10
  else 1

/-- JavaScript object-key coercion for an optional string id. -/
def jsPropKey (s : Option String) : String := s.getD "undefined"

/-- handlers/conversations.js handleGenericStep: store the input (null on
/skip) under the key, persist the advanced step, then render the progress
prompt; a throw from the progress render escapes after the state was
already persisted.  The in-place mutation of state.data is modelled by
passing the updated object to updateUserState, which the source calls with
the same object. -/
def handleGenericStep (env : ConvEnv) (u : Nat) (st : Store) (state : UserStateObj)
    (key : ScalarKey) (nextStep : String) (isSkip : Bool) (input : String)
    (nextPrompt : String) : Store × List Event × Except String Bool :=
  let state := { state with
    data := some (setScalar (state.data.getD {}) key (if isSkip then none else some input))
    currentStep := some nextStep }
  let st := updateUserState u state st
  let currentStepNum := stepNumbersAdd nextStep
  match env.showProgress with
  | Except.ok _ => (st, [Event.progress "add_case" currentStepNum 10 nextPrompt], Except.ok true)
  | Except.error e => (st, [], Except.error e)

/-- handlers/conversations.js promptNext: persist the advanced step and
render the add-case progress prompt. -/
def promptNext (env : ConvEnv) (u : Nat) (st : Store) (state : UserStateObj)
    (nextStep : String) (message : String) : Store × List Event × Except String Bool :=
  let state := { state with currentStep := some nextStep }
  let st := updateUserState u state st
  let currentStepNum := stepNumbersAdd nextStep
  match env.showProgress with
  | Except.ok _ => (st, [Event.progress "add_case" currentStepNum 10 message], Except.ok true)
  | Except.error e => (st, [], Except.error e)

/-- handlers/conversations.js promptNextEdit: persist the advanced step
and render the edit-case progress prompt. -/
def promptNextEdit (env : ConvEnv) (u : Nat) (st : Store) (state : UserStateObj)
    (nextStep : String) (message : String) : Store × List Event × Except String Bool :=
  let state := { state with currentStep := some nextStep }
  let st := updateUserState u state st
  let currentStepNum := stepNumbersEdit nextStep
  match env.showProgress with
  | Except.ok _ => (st, [Event.progress "edit_case" currentStepNum 10 message], Except.ok true)
  | Except.error e => (st, [], Except.error e)

/-- handlers/conversations.js handleCaseIdInput: reject /skip, reject an
invalid id format, reject a duplicate id (each with a reply and no state
change), else store the id, advance to the title step and confirm. -/
def handleCaseIdInput (env : ConvEnv) (u : Nat) (st : Store) (state : UserStateObj)
    (input : String) (isSkip : Bool) : Store × List Event × Except String Bool :=
  if isSkip then
    match env.reply with
    | Except.ok _ => (st, [Event.reply "❌ Case ID is required and cannot be skipped"], Except.ok true)
    | Except.error e => (st, [], Except.error e)
  else if !isValidCaseId input then
    match env.reply with
    | Except.ok _ =>
      (st, [Event.reply "❌ Invalid ID format. Use only lowercase Latin letters, numbers, and underscores."], Except.ok true)
    | Except.error e => (st, [], Except.error e)
  else
    match env.getContent with
    | Except.error e => (st, [], Except.error e)
    | Except.ok content =>
      if caseExists content input then
        match env.reply with
        | Except.ok _ =>
          (st, [Event.reply ("❌ Case with ID \x22" ++ escapeMarkdown (some input) ++ "\x22 already exists.")], Except.ok true)
        | Except.error e => (st, [], Except.error e)
      else
        let state := { state with
          data := some { (state.data.getD {}) with id := some input }
          currentStep := some ADD_WAITING_TITLE }
        let st := updateUserState u state st
        match env.reply with
        | Except.ok _ =>
          (st, [Event.reply ("✅ ID saved: " ++ escapeMarkdown (some input))], Except.ok true)
        | Except.error e => (st, [], Except.error e)

/-- handlers/conversations.js saveCaseData: load the content document,
write a backup, insert the case_studies entry (null scalars coerced to the
empty string by the or-defaults, arrays defaulted to empty) and the
case_details entry, push the update, then render the success menu.  A
missing GLOBAL_DATA section is the TypeError the property accesses would
throw. -/
def saveCaseData (env : ConvEnv) (data : CaseData) : List Event × Except String Unit :=
  match env.getContent with
  | Except.error e => ([], Except.error e)
  | Except.ok content =>
    match env.createBackup with
    | Except.error e => ([], Except.error e)
    | Except.ok _ =>
      match content.GLOBAL_DATA with
      | none => ([Event.backupCall content], Except.error "TypeError: Cannot read properties of undefined")
      | some g =>
        let entry : CaseStudyEntry :=
          { title := some (TB.jsOrStr data.title "")
            desc := some (TB.jsOrStr data.desc "")
            metrics := some (TB.jsOrStr data.metrics "")
            tags := some (data.tags.getD []) }
        let detailsEntry : CaseDetailsEntry :=
          { challenge := some (TB.jsOrStr data.challenge "")
            approach := some (data.approach.getD [])
            solution := some (TB.jsOrStr data.solution "")
            results := some (data.results.getD [])
            learnings := some (TB.jsOrStr data.learnings "") }
        let newContent : Content :=
          { content with GLOBAL_DATA := some (
            { g with
              case_studies := some (setEntry (g.case_studies.getD []) (jsPropKey data.id) entry)
              case_details := some (setEntry (g.case_details.getD []) (jsPropKey data.id) detailsEntry) }) }
        match env.updateContent with
        | Except.error e => ([Event.backupCall content], Except.error e)
        | Except.ok _ =>
          match env.showSuccess with
          | Except.error e =>
            ([Event.backupCall content, Event.updateContentCall newContent], Except.error e)
          | Except.ok _ =>
            ([Event.backupCall content, Event.updateContentCall newContent,
              Event.successMenu "created" (jsPropKey data.id)], Except.ok ())

/-- handlers/conversations.js updateExistingCase: like saveCaseData but
the entries are written from the wizard fields verbatim (no or-defaults)
and the success menu reports an update. -/
def updateExistingCase (env : ConvEnv) (data : CaseData) : List Event × Except String Unit :=
  match env.getContent with
  | Except.error e => ([], Except.error e)
  | Except.ok content =>
    match env.createBackup with
    | Except.error e => ([], Except.error e)
    | Except.ok _ =>
      match content.GLOBAL_DATA with
      | none => ([Event.backupCall content], Except.error "TypeError: Cannot read properties of undefined")
      | some g =>
        let entry : CaseStudyEntry :=
          { title := data.title, desc := data.desc, metrics := data.metrics, tags := data.tags }
        let detailsEntry : CaseDetailsEntry :=
          { challenge := data.challenge, approach := data.approach, solution := data.solution,
            results := data.results, learnings := data.learnings }
        let newContent : Content :=
          { content with GLOBAL_DATA := some (
            { g with
              case_studies := some (setEntry (g.case_studies.getD []) (jsPropKey data.id) entry)
              case_details := some (setEntry (g.case_details.getD []) (jsPropKey data.id) detailsEntry) }) }
        match env.updateContent with
        | Except.error e => ([Event.backupCall content], Except.error e)
        | Except.ok _ =>
          match env.showSuccess with
          | Except.error e =>
            ([Event.backupCall content, Event.updateContentCall newContent], Except.error e)
          | Except.ok _ =>
            ([Event.backupCall content, Event.updateContentCall newContent,
              Event.successMenu "updated" (jsPropKey data.id)], Except.ok ())

/-- Final-step commit shared shape of both dispatchers: persist the case
through the given save result (clearing the user state on success), or
propagate the exception with the store as it stood after the in-place
mutation. -/
def finalStepCommit (u : Nat) (st2 : TB.StateManager.Store)
    (r : List Event × Except String Unit) : TB.StateManager.Store × List Event × Except String Bool :=
  match r with
  | (evs, Except.ok _) => (TB.StateManager.clearUserState u st2, evs, Except.ok true)
  | (evs, Except.error e) => (st2, evs, Except.error e)

/-- Catch wrapper shared by the conversation handlers: a value returned
by the try body passes through; a thrown exception is reported with an
escaped error reply and the handler returns true. -/
def wrapCatch (body : Store × List Event × Except String Bool) : ConvResult :=
  match body with
  | (st2, evs, Except.ok b) => { store := st2, events := evs, handled := b, caught := none }
  | (st2, evs, Except.error e) =>
    { store := st2, events := evs ++ [Event.reply (errorReplyText e)],
      handled := true, caught := some e }

/-- Try body of handlers/conversations.js handleAddCaseConversation:
dispatch on the current step; mutations made before a throw stay visible
because the source mutates the stored state object in place. -/
def addCaseBody (env : ConvEnv) (u : Nat) (st : Store)
    (state : UserStateObj) (input : String) : Store × List Event × Except String Bool :=
  let isSkip := input = "/skip"
    if state.currentStep = some ADD_WAITING_ID then
      handleCaseIdInput env u st state input isSkip
    else if state.currentStep = some ADD_WAITING_TITLE then
      handleGenericStep env u st state ScalarKey.title ADD_WAITING_DESC isSkip input
        "Step 3/10: *Enter a short description*"
    else if state.currentStep = some ADD_WAITING_DESC then
      handleGenericStep env u st state ScalarKey.desc ADD_WAITING_METRICS isSkip input
        "Step 4/10: *Enter metrics* (optional)"
    else if state.currentStep = some ADD_WAITING_METRICS then
      handleGenericStep env u st state ScalarKey.metrics ADD_WAITING_TAGS isSkip input
        "Step 5/10: *Enter tags (comma-separated)*"
    else if state.currentStep = some ADD_WAITING_TAGS then
      let state := { state with data := some (
        { (state.data.getD {}) with tags := some (if isSkip then [] else parseArrayInput (some input) ",") }) }
      promptNext env u st state ADD_WAITING_CHALLENGE "Step 6/10: *Describe the challenge*"
    else if state.currentStep = some ADD_WAITING_CHALLENGE then
      handleGenericStep env u st state ScalarKey.challenge ADD_WAITING_APPROACH isSkip input
        "Step 7/10: *Describe your approach*"
    else if state.currentStep = some ADD_WAITING_APPROACH then
      let state := { state with data := some (
        { (state.data.getD {}) with approach := some (if isSkip then [] else parseArrayInput (some input) ",") }) }
      promptNext env u st state ADD_WAITING_SOLUTION "Step 8/10: *Describe your solution*"
    else if state.currentStep = some ADD_WAITING_SOLUTION then
      handleGenericStep env u st state ScalarKey.solution ADD_WAITING_RESULTS isSkip input
        "Step 9/10: *List key results*"
    else if state.currentStep = some ADD_WAITING_RESULTS then
      let state := { state with data := some (
        { (state.data.getD {}) with results := some (if isSkip then [] else parseArrayInput (some input) ",") }) }
      promptNext env u st state ADD_WAITING_LEARNINGS "Step 10/10: *Describe your learnings*"
    else if state.currentStep = some ADD_WAITING_LEARNINGS then
      let state := { state with data := some (
        { (state.data.getD {}) with learnings := (if isSkip then none else some input) }) }
      finalStepCommit u (updateUserState u state st) (saveCaseData env (state.data.getD {}))
    else (st, [], Except.ok false)

/-- handlers/conversations.js handleAddCaseConversation: the try body
under the catch wrapper. -/
def handleAddCaseConversation (env : ConvEnv) (u : Nat) (st : Store)
    (state : UserStateObj) (input : String) : ConvResult :=
  wrapCatch (addCaseBody env u st state input)

/-- Try body of handlers/conversations.js handleEditCaseConversation:
like the add-case dispatcher with /keep semantics (an existing value is
left untouched) and updateExistingCase on the final step. -/
def editCaseBody (env : ConvEnv) (u : Nat) (st : Store)
    (state : UserStateObj) (input : String) : Store × List Event × Except String Bool :=
  let isKeep := input = "/keep"
    if state.currentStep = some EDIT_WAITING_TITLE then
      let state := if isKeep then state else
        { state with data := some { (state.data.getD {}) with title := some input } }
      promptNextEdit env u st state EDIT_WAITING_DESC "Enter new *description* or /keep to leave unchanged"
    else if state.currentStep = some EDIT_WAITING_DESC then
      let state := if isKeep then state else
        { state with data := some { (state.data.getD {}) with desc := some input } }
      promptNextEdit env u st state EDIT_WAITING_METRICS "Enter new *metrics* or /keep"
    else if state.currentStep = some EDIT_WAITING_METRICS then
      let state := if isKeep then state else
        { state with data := some { (state.data.getD {}) with metrics := some input } }
      promptNextEdit env u st state EDIT_WAITING_TAGS "Enter new *tags* (comma-separated) or /keep"
    else if state.currentStep = some EDIT_WAITING_TAGS then
      let state := if isKeep then state else
        { state with data := some { (state.data.getD {}) with tags := some (parseArrayInput (some input) ",") } }
      promptNextEdit env u st state EDIT_WAITING_CHALLENGE "Enter new *challenge* or /keep"
    else if state.currentStep = some EDIT_WAITING_CHALLENGE then
      let state := if isKeep then state else
        { state with data := some { (state.data.getD {}) with challenge := some input } }
      promptNextEdit env u st state EDIT_WAITING_APPROACH "Enter new *approach* (comma-separated) or /keep"
    else if state.currentStep = some EDIT_WAITING_APPROACH then
      let state := if isKeep then state else
        { state with data := some { (state.data.getD {}) with approach := some (parseArrayInput (some input) ",") } }
      promptNextEdit env u st state EDIT_WAITING_SOLUTION "Enter new *solution* or /keep"
    else if state.currentStep = some EDIT_WAITING_SOLUTION then
      let state := if isKeep then state else
        { state with data := some { (state.data.getD {}) with solution := some input } }
      promptNextEdit env u st state EDIT_WAITING_RESULTS "Enter new *results* (comma-separated) or /keep"
    else if state.currentStep = some EDIT_WAITING_RESULTS then
      let state := if isKeep then state else
        { state with data := some { (state.data.getD {}) with results := some (parseArrayInput (some input) ",") } }
      promptNextEdit env u st state EDIT_WAITING_LEARNINGS "Enter new *learnings* or /keep"
    else if state.currentStep = some EDIT_WAITING_LEARNINGS then
      let state := if isKeep then state else
        { state with data := some { (state.data.getD {}) with learnings := some input } }
      finalStepCommit u (if isKeep then st else updateUserState u state st)
        (updateExistingCase env (state.data.getD {}))
    else (st, [], Except.ok false)

/-- handlers/conversations.js handleEditCaseConversation: the try body
under the catch wrapper. -/
def handleEditCaseConversation (env : ConvEnv) (u : Nat) (st : Store)
    (state : UserStateObj) (input : String) : ConvResult :=
  wrapCatch (editCaseBody env u st state input)

/-- commands/content.js handleAddCase, state effect: when the user has no
active session, initUserState followed by updateUserState with the
add_case command, the WAITING_ID step, and the wizard data object whose
scalar fields are initialized to null and whose array fields (tags,
approach, results) are initialized to empty arrays. -/
def handleAddCase (u : Nat) (now : Nat) (st : Store) : Store :=
  if hasActiveState u st then st
  else
    updateUserState u
      { command := some "add_case", currentStep := some ADD_WAITING_ID,
        data := some
          { id := none, title := none, desc := none, metrics := none,
            tags := some [], challenge := none, approach := some [],
            solution := none, results := some [], learnings := none } }
      (initUserState u now st)

/-- Driver of a whole add-case wizard run: feed each message through the
conversation router's add_case route (handlers/conversations.js
handleConversation), accumulating the collaborator calls. -/
def runAddCase (env : ConvEnv) (u : Nat) (msgs : List String) (st : Store) :
    Store × List Event :=
  msgs.foldl
    (fun acc msg =>
      match getUserState u acc.1 with
      | none => acc
      | some state =>
        if state.command = some "add_case" then
          let r := handleAddCaseConversation env u acc.1 state msg
          (r.store, acc.2 ++ r.events)
        else acc)
    (st, [])

/-- First content document pushed through updateContent among the recorded
events. -/
def firstUpdatedContent : List Event → Option Content
  | [] => none
  | Event.updateContentCall c :: _ => some c
  | _ :: rest => firstUpdatedContent rest

/-- Case-studies entry of a content document under the given id. -/
def caseStudyOf (c : Content) (id : String) : Option CaseStudyEntry :=
  match c.GLOBAL_DATA with
  | none => none
  | some g => (g.case_studies.getD []).lookup id

/-- The ten add-case conversation steps in wizard order. -/
def addCaseSteps : List String :=
  [ADD_WAITING_ID, ADD_WAITING_TITLE, ADD_WAITING_DESC, ADD_WAITING_METRICS,
   ADD_WAITING_TAGS, ADD_WAITING_CHALLENGE, ADD_WAITING_APPROACH,
   ADD_WAITING_SOLUTION, ADD_WAITING_RESULTS, ADD_WAITING_LEARNINGS]

/-- The nine edit-case conversation steps in wizard order. -/
def editCaseSteps : List String :=
  [EDIT_WAITING_TITLE, EDIT_WAITING_DESC, EDIT_WAITING_METRICS, EDIT_WAITING_TAGS,
   EDIT_WAITING_CHALLENGE, EDIT_WAITING_APPROACH, EDIT_WAITING_SOLUTION,
   EDIT_WAITING_RESULTS, EDIT_WAITING_LEARNINGS]

/-- Step that the add-case dispatcher persists before its progress render
(the step after the given one; the final step persists no new step). -/
def addNextStep (s : String) : Option String :=
  if s = ADD_WAITING_ID then some ADD_WAITING_TITLE
  else if s = ADD_WAITING_TITLE then some ADD_WAITING_DESC
  else if s = ADD_WAITING_DESC then some ADD_WAITING_METRICS
  else if s = ADD_WAITING_METRICS then some ADD_WAITING_TAGS
  else if s = ADD_WAITING_TAGS then some ADD_WAITING_CHALLENGE
  else if s = ADD_WAITING_CHALLENGE then some ADD_WAITING_APPROACH
  else if s = ADD_WAITING_APPROACH then some ADD_WAITING_SOLUTION
  else if s = ADD_WAITING_SOLUTION then some ADD_WAITING_RESULTS
  else if s = ADD_WAITING_RESULTS then some ADD_WAITING_LEARNINGS
  else none

/-- Step that the edit-case dispatcher persists before its progress
render. -/
def editNextStep (s : String) : Option String :=
  if s = EDIT_WAITING_TITLE then some EDIT_WAITING_DESC
  else if s = EDIT_WAITING_DESC then some EDIT_WAITING_METRICS
  else if s = EDIT_WAITING_METRICS then some EDIT_WAITING_TAGS
  else if s = EDIT_WAITING_TAGS then some EDIT_WAITING_CHALLENGE
  else if s = EDIT_WAITING_CHALLENGE then some EDIT_WAITING_APPROACH
  else if s = EDIT_WAITING_APPROACH then some EDIT_WAITING_SOLUTION
  else if s = EDIT_WAITING_SOLUTION then some EDIT_WAITING_RESULTS
  else if s = EDIT_WAITING_RESULTS then some EDIT_WAITING_LEARNINGS
  else none

end TB.Conversations

-- ===== THEOREMS =====

namespace TB.StateManager

lemma store_set_self (st : Store) (u : Nat) (v : UserStateObj) :
    (st.set u v) u = some v := by
  simp [Store.set]

lemma head?_append_singleton {α : Type} (l : List α) (x : α) (h : l ≠ []) :
    (l ++ [x]).head? = l.head? := by
  cases l <;> simp_all

lemma head?_dropLast_of_two {α : Type} (l : List α) (h : 2 ≤ l.length) :
    l.dropLast.head? = l.head? := by
  match l with
  | [] => simp at h
  | [a] => simp at h
  | a :: b :: t => simp [List.dropLast]

lemma getNavigationContext_updateNavigationContext (u : Nat) (upd : NavUpdates)
    (now : Nat) (st : Store) (s : UserStateObj) (c : NavContext)
    (hs : st u = some s) (hc : s.navigation = some c) :
    getNavigationContext u (updateNavigationContext u upd now st) =
      some { currentMenu := upd.currentMenu.getD c.currentMenu
             menuHistory := upd.menuHistory.getD c.menuHistory
             breadcrumbs := upd.breadcrumbs.getD c.breadcrumbs
             messageId := upd.messageId.getD c.messageId
             lastAction := upd.lastAction <|> c.lastAction
             lastInteraction := now } := by
  simp [updateNavigationContext, getNavigationContext, getUserState, hs, hc, store_set_self]

lemma exists_state_of_getNav {u : Nat} {st : Store} {c : NavContext}
    (hc : getNavigationContext u st = some c) :
    ∃ s, st u = some s ∧ s.navigation = some c := by
  unfold getNavigationContext at hc
  cases hu : st u with
  | none => rw [hu] at hc; simp at hc
  | some s => rw [hu] at hc; exact ⟨s, rfl, hc⟩

lemma navStackInvariant_enter (u : Nat) (st : Store) (ms t : String)
    (m : Option Nat) (n : Nat) (h : navStackInvariant u st) :
    navStackInvariant u (navigateToMenu u ms t m n st) := by
  obtain ⟨c, hc, hlen, hpos, hhead⟩ := h
  obtain ⟨s, hs, hnav⟩ := exists_state_of_getNav hc
  have hml : c.menuHistory ≠ [] := by
    intro hnil; rw [hnil] at hpos; simp at hpos
  unfold navigateToMenu
  rw [hc]
  simp only [Option.map_some', Option.getD_some]
  by_cases hpush : c.menuHistory.getLast? = some t
  · rw [if_neg (by simp [hpush]), if_neg (by simp [hpush])]
    refine ⟨_, getNavigationContext_updateNavigationContext u _ n st s c hs hnav, ?_, ?_, ?_⟩
    · simpa using hlen
    · simpa using hpos
    · simpa using hhead
  · rw [if_pos (by simp [hpush]), if_pos (by simp [hpush])]
    refine ⟨_, getNavigationContext_updateNavigationContext u _ n st s c hs hnav, ?_, ?_, ?_⟩
    · simp only [Option.getD_some, List.length_append, List.length_cons, List.length_nil]
      omega
    · simp only [Option.getD_some, List.length_append, List.length_cons, List.length_nil]
      omega
    · simp only [Option.getD_some]
      rw [head?_append_singleton _ _ hml]
      exact hhead

lemma navStackInvariant_back (u : Nat) (st : Store) (n : Nat)
    (h : navStackInvariant u st) :
    navStackInvariant u ((navigateBack u n st).2) := by
  obtain ⟨c, hc, hlen, hpos, hhead⟩ := h
  obtain ⟨s, hs, hnav⟩ := exists_state_of_getNav hc
  unfold navigateBack
  rw [hc]
  dsimp only
  by_cases hlen1 : c.menuHistory.length ≤ 1
  · rw [if_pos hlen1]
    exact ⟨c, hc, hlen, hpos, hhead⟩
  · rw [if_neg hlen1]
    have h2 : 2 ≤ c.menuHistory.length := by omega
    refine ⟨_, getNavigationContext_updateNavigationContext u _ n st s c hs hnav, ?_, ?_, ?_⟩
    · simp only [Option.getD_some, List.length_dropLast]
      omega
    · simp only [Option.getD_some, List.length_dropLast]
      omega
    · simp only [Option.getD_some]
      rw [head?_dropLast_of_two _ h2]
      exact hhead

lemma navStackInvariant_applyNavOp (u : Nat) (st : Store) (op : NavOp)
    (h : navStackInvariant u st) : navStackInvariant u (applyNavOp u st op) := by
  cases op with
  | enter ms t m n => exact navStackInvariant_enter u st ms t m n h
  | back n => exact navStackInvariant_back u st n h

lemma navStackInvariant_applyNavOps (u : Nat) (ops : List NavOp) (st : Store)
    (h : navStackInvariant u st) : navStackInvariant u (applyNavOps u ops st) := by
  induction ops generalizing st with
  | nil => exact h
  | cons op rest ih =>
    exact ih _ (navStackInvariant_applyNavOp u st op h)

lemma navStackInvariant_init (u now : Nat) (st0 : Store) :
    navStackInvariant u (initUserState u now st0) := by
  refine ⟨defaultNavContext now, ?_, by simp [defaultNavContext], by simp [defaultNavContext],
    by simp [defaultNavContext]⟩
  simp [getNavigationContext, initUserState, store_set_self]

/-- Claim C6: for every sequence of enterMenu (navigateToMenu) and goBack
(navigateBack) calls applied to a state created by initUserState, the
invariant menuHistory.length = breadcrumbs.length >= 1 with "Main Menu" at
the bottom of the stack holds after every call; "Main Menu" is never
popped. -/
theorem claim_C6_navigation_stack_invariant (u now : Nat) (st0 : Store) (ops : List NavOp) :
    navStackInvariant u (applyNavOps u ops (initUserState u now st0)) :=
  navStackInvariant_applyNavOps u ops _ (navStackInvariant_init u now st0)

end TB.StateManager

namespace TB.StateManager

lemma getNav_navigateToMenu (u : Nat) (ms t : String) (m : Option Nat) (n : Nat)
    (st : Store) (s : UserStateObj) (c : NavContext)
    (hs : st u = some s) (hnav : s.navigation = some c) :
    getNavigationContext u (navigateToMenu u ms t m n st) = some
      { currentMenu := ms
        menuHistory := if c.menuHistory.getLast? ≠ some t then c.menuHistory ++ [t] else c.menuHistory
        breadcrumbs := if c.menuHistory.getLast? ≠ some t then c.breadcrumbs ++ [t] else c.breadcrumbs
        messageId := TB.jsOrNat m c.messageId
        lastAction := some ("navigate_to_" ++ ms)
        lastInteraction := n } := by
  have hc : getNavigationContext u st = some c := by
    simp [getNavigationContext, hs, hnav]
  unfold navigateToMenu
  rw [hc]
  simp only [Option.map_some', Option.getD_some, Option.some_bind]
  rw [getNavigationContext_updateNavigationContext u _ n st s c hs hnav]
  simp

lemma getLast?_after_enter (c : NavContext) (t : String) :
    (if c.menuHistory.getLast? ≠ some t then c.menuHistory ++ [t] else c.menuHistory).getLast?
      = some t := by
  by_cases hp : c.menuHistory.getLast? = some t
  · simp [hp]
  · simp [hp]

/-- Claim C8: navigateToMenu is idempotent in its display title: two
successive calls with the same displayTitle grow menuHistory and
breadcrumbs by at most one entry, because a title equal to the current top
of the stack is not pushed again. -/
theorem claim_C8_idempotent_reentry (u : Nat) (st : Store) (c : NavContext)
    (ms1 ms2 t : String) (m1 m2 : Option Nat) (n1 n2 : Nat)
    (h : getNavigationContext u st = some c) :
    ∃ c2, getNavigationContext u
        (navigateToMenu u ms2 t m2 n2 (navigateToMenu u ms1 t m1 n1 st)) = some c2 ∧
      c2.menuHistory.length ≤ c.menuHistory.length + 1 ∧
      c2.breadcrumbs.length ≤ c.breadcrumbs.length + 1 := by
  obtain ⟨s, hs, hnav⟩ := exists_state_of_getNav h
  have h1 := getNav_navigateToMenu u ms1 t m1 n1 st s c hs hnav
  obtain ⟨s1, hs1, hnav1⟩ := exists_state_of_getNav h1
  have h2 := getNav_navigateToMenu u ms2 t m2 n2 _ s1 _ hs1 hnav1
  refine ⟨_, h2, ?_, ?_⟩
  · simp only [getLast?_after_enter, ne_eq, not_true_eq_false, ite_false]
    by_cases hp : c.menuHistory.getLast? = some t
    · simp [hp]
    · simp [hp]
  · simp only [getLast?_after_enter, ne_eq, not_true_eq_false, ite_false]
    by_cases hp : c.menuHistory.getLast? = some t
    · simp [hp]
    · simp [hp]

/-- Witness for claim C8 at a concrete input: entering "Content Management"
twice from a freshly initialised state grows the stacks by at most one. -/
theorem claim_C8_idempotent_reentry_witness :
    ∃ c2, getNavigationContext 1
        (navigateToMenu 1 "content_category" "Content Management" none 2
          (navigateToMenu 1 "content_category" "Content Management" none 1
            (initUserState 1 0 Store.empty))) = some c2 ∧
      c2.menuHistory.length ≤ (defaultNavContext 0).menuHistory.length + 1 ∧
      c2.breadcrumbs.length ≤ (defaultNavContext 0).breadcrumbs.length + 1 :=
  claim_C8_idempotent_reentry 1 (initUserState 1 0 Store.empty) (defaultNavContext 0)
    "content_category" "content_category" "Content Management" none none 1 2
    (by simp [getNavigationContext, initUserState, store_set_self])

/-- Claim C9: updateUserState for a userId with no stored state stores
exactly the updates object; when the updates carry no navigation key,
getNavigationContext returns null for that user, and when they carry no
startedAt key the stored record has none, unlike records created by
initUserState. -/
theorem claim_C9_update_absent_user (u : Nat) (updates : UserStateObj) (st : Store)
    (h : st u = none) (hnav : updates.navigation = none) (hstart : updates.startedAt = none) :
    getUserState u (updateUserState u updates st) = some updates ∧
    getNavigationContext u (updateUserState u updates st) = none ∧
    (getUserState u (updateUserState u updates st)).bind (·.startedAt) = none := by
  have hmerge : mergeUserState UserStateObj.empty updates = updates := by
    simp [mergeUserState, UserStateObj.empty]
  have hst : getUserState u (updateUserState u updates st) = some updates := by
    unfold updateUserState getUserState
    rw [h]
    simp only [Option.getD_none]
    rw [hmerge]
    exact store_set_self st u updates
  refine ⟨hst, ?_, ?_⟩
  · unfold getNavigationContext
    unfold getUserState at hst
    rw [hst, Option.some_bind, hnav]
  · rw [hst, Option.some_bind, hstart]

/-- Witness for claim C9 at a concrete input: updating an absent user with
a bare command/currentStep object stores exactly that object. -/
theorem claim_C9_update_absent_user_witness :
    getUserState 5 (updateUserState 5
        { command := some "add_case", currentStep := some "waiting_id" } Store.empty) =
      some { command := some "add_case", currentStep := some "waiting_id" } ∧
    getNavigationContext 5 (updateUserState 5
        { command := some "add_case", currentStep := some "waiting_id" } Store.empty) = none ∧
    (getUserState 5 (updateUserState 5
        { command := some "add_case", currentStep := some "waiting_id" } Store.empty)).bind
      (·.startedAt) = none :=
  claim_C9_update_absent_user 5
    { command := some "add_case", currentStep := some "waiting_id" } Store.empty rfl rfl rfl

end TB.StateManager

namespace TB.Analytics

/-- Claim C4 (code bug): start() cannot perform the claimed two-state
transition: its first statement evaluates ENABLE_ANALYTICS, which is not
bound in the module scope of analytics.js, so calling start() on the
freshly constructed (stopped) monitor throws a ReferenceError instead of
transitioning to running without throwing. -/
theorem claim_C4_start_throws_reference_error :
    AnalyticsMonitor.start (AnalyticsMonitor.init 0) =
      Except.error (JsError.referenceError "ENABLE_ANALYTICS") ∧
    (AnalyticsMonitor.init 0).isRunning = false ∧
    (∀ s : MonitorState, AnalyticsMonitor.start s =
      Except.error (JsError.referenceError "ENABLE_ANALYTICS")) :=
  ⟨rfl, rfl, fun _ => rfl⟩

lemma processVisit_skip (content : Option TB.Content.Content) (k : Nat → Bool)
    (s : MonitorState) (sent : List Sent) (v : Visit)
    (h : v.idVisit ∈ s.notifiedVisitIds) :
    processVisit content k (s, sent) v = (s, sent) := by
  unfold processVisit
  rw [if_pos h]

lemma processVisit_mem_notified (content : Option TB.Content.Content) (k : Nat → Bool)
    (s : MonitorState) (sent : List Sent) (v : Visit) :
    v.idVisit ∈ (processVisit content k (s, sent) v).1.notifiedVisitIds := by
  unfold processVisit
  by_cases h : v.idVisit ∈ s.notifiedVisitIds
  · rw [if_pos h]; exact h
  · rw [if_neg h]
    dsimp only
    split
    · split <;> simp
    · split
      · simp
      · split <;> simp

lemma processVisit_sent_len (content : Option TB.Content.Content) (k : Nat → Bool)
    (s : MonitorState) (sent : List Sent) (v : Visit) :
    (processVisit content k (s, sent) v).2.length ≤ sent.length + 1 := by
  unfold processVisit
  by_cases h : v.idVisit ∈ s.notifiedVisitIds
  · rw [if_pos h]; simp
  · rw [if_neg h]
    dsimp only
    split
    · split <;> simp
    · split
      · simp
      · split <;> simp

/-- Claim C5 (counterexample): a visit carrying an access code in
dimension1 but no page views is processed twice and produces zero
notification attempts, not exactly one. -/
theorem claim_C5_counterexample :
    (processVisit none (fun _ => true)
      (processVisit none (fun _ => true)
        ({ notifiedVisitIds := [], stats := { lastCheckTime := 0 } }, [])
        { idVisit := 9, dimension1 := some "X", actionDetails := some [] })
      { idVisit := 9, dimension1 := some "X", actionDetails := some [] }).2.length = 0 ∧
    ¬ (processVisit none (fun _ => true)
      (processVisit none (fun _ => true)
        ({ notifiedVisitIds := [], stats := { lastCheckTime := 0 } }, [])
        { idVisit := 9, dimension1 := some "X", actionDetails := some [] })
      { idVisit := 9, dimension1 := some "X", actionDetails := some [] }).2.length = 1 := by
  constructor
  · rfl
  · decide

/-- Claim C5 (amended): processing the same visit record twice through
the per-visit step yields at most one notification attempt: the id is in
the notified set after the first processing (it is added before any send
attempt and a send failure does not remove it, whatever the send
outcomes), and the second processing is a complete no-op. -/
theorem claim_C5_amended_at_most_one_attempt (content : Option TB.Content.Content)
    (sendOk1 sendOk2 : Nat → Bool) (s : MonitorState) (v : Visit) :
    processVisit content sendOk2 (processVisit content sendOk1 (s, []) v) v =
      processVisit content sendOk1 (s, []) v ∧
    (processVisit content sendOk1 (s, []) v).2.length ≤ 1 ∧
    v.idVisit ∈ (processVisit content sendOk1 (s, []) v).1.notifiedVisitIds := by
  have hmem := processVisit_mem_notified content sendOk1 s [] v
  refine ⟨?_, ?_, hmem⟩
  · have := processVisit_skip content sendOk2
      (processVisit content sendOk1 (s, []) v).1
      (processVisit content sendOk1 (s, []) v).2 v hmem
    simpa using this
  · simpa using processVisit_sent_len content sendOk1 s [] v

/-- Claim C2 (counterexample): a visit with no extractable access code and
zero visited pages is not silently dropped: the per-visit step sends an
explicitly anonymous notification for it. -/
theorem claim_C2_counterexample :
    extractVisitedPages { idVisit := 7, actionDetails := some [] } = [] ∧
    jsTruthyAccess (extractAccessCodeEnhanced { idVisit := 7, actionDetails := some [] }) = false ∧
    (processVisit none (fun _ => true)
      ({ notifiedVisitIds := [], stats := { lastCheckTime := 0 } }, [])
      { idVisit := 7, actionDetails := some [] }).2 =
      [{ visitId := 7, anonymous := true, delivered := true }] := by
  refine ⟨rfl, rfl, rfl⟩

/-- Claim C2 (amended): for every not-yet-notified visit from which no
access code can be extracted, the per-visit step attempts exactly one
notification, explicitly labeled anonymous, regardless of the number of
visited pages, and adds the visit id to the notified set; the zero-page
silent skip applies only to visits that do carry an access code. -/
theorem claim_C2_amended_anonymous_always_notified (content : Option TB.Content.Content)
    (sendOk : Nat → Bool) (s : MonitorState) (sent : List Sent) (v : Visit)
    (hcode : jsTruthyAccess (extractAccessCodeEnhanced v) = false)
    (hnew : v.idVisit ∉ s.notifiedVisitIds) :
    (processVisit content sendOk (s, sent) v).2 =
      sent ++ [{ visitId := v.idVisit, anonymous := true, delivered := sendOk v.idVisit }] ∧
    v.idVisit ∈ (processVisit content sendOk (s, sent) v).1.notifiedVisitIds := by
  unfold processVisit
  rw [if_neg hnew]
  dsimp only
  rw [hcode]
  cases hsend : sendOk v.idVisit <;> simp [hsend]

/-- Witness for the amended claim C2 at a concrete input: a bare visit
with id 3 and no data yields one anonymous undelivered attempt. -/
theorem claim_C2_amended_witness :
    (processVisit none (fun _ => false)
      ({ notifiedVisitIds := [], stats := { lastCheckTime := 0 } }, [])
      { idVisit := 3 }).2 =
      [] ++ [{ visitId := 3, anonymous := true, delivered := false }] ∧
    3 ∈ (processVisit none (fun _ => false)
      ({ notifiedVisitIds := [], stats := { lastCheckTime := 0 } }, [])
      { idVisit := 3 }).1.notifiedVisitIds := by
  have h := claim_C2_amended_anonymous_always_notified none (fun _ => false)
    { notifiedVisitIds := [], stats := { lastCheckTime := 0 } } [] { idVisit := 3 }
    (by decide) (by decide)
  simpa using h

end TB.Analytics

namespace TB.Analytics

lemma catchBranch_notified (a : Bool) (s : MonitorState) (sent : List Sent) :
    (catchBranch a s sent).1.notifiedVisitIds = s.notifiedVisitIds := by
  unfold catchBranch
  dsimp only
  split
  · split <;> rfl
  · rfl

lemma catchBranch_lastCheckTime (a : Bool) (s : MonitorState) (sent : List Sent) :
    (catchBranch a s sent).1.stats.lastCheckTime = s.stats.lastCheckTime := by
  unfold catchBranch
  dsimp only
  split
  · split <;> rfl
  · rfl

lemma catchBranch_checksPerformed (a : Bool) (s : MonitorState) (sent : List Sent) :
    (catchBranch a s sent).1.stats.checksPerformed = s.stats.checksPerformed := by
  unfold catchBranch
  dsimp only
  split
  · split <;> rfl
  · rfl

lemma catchBranch_sent (a : Bool) (s : MonitorState) (sent : List Sent) :
    (catchBranch a s sent).2.1 = sent := by
  unfold catchBranch
  dsimp only
  split
  · split <;> rfl
  · rfl

lemma catchBranch_errors (a : Bool) (s : MonitorState) (sent : List Sent) :
    (catchBranch a s sent).1.stats.errors = s.stats.errors + 1 ∨
      (5 < s.stats.errors + 1 ∧ a = true ∧ (catchBranch a s sent).1.stats.errors = 0) := by
  unfold catchBranch
  dsimp only
  by_cases h5 : s.stats.errors + 1 > 5
  · cases a with
    | true => right; exact ⟨h5, rfl, by simp [h5]⟩
    | false => left; simp [h5]
  · left; simp [h5]

lemma processVisit_lastCheckTime (content : Option TB.Content.Content) (k : Nat → Bool)
    (s : MonitorState) (sent : List Sent) (v : Visit) :
    (processVisit content k (s, sent) v).1.stats.lastCheckTime = s.stats.lastCheckTime := by
  unfold processVisit
  by_cases h : v.idVisit ∈ s.notifiedVisitIds
  · rw [if_pos h]
  · rw [if_neg h]
    dsimp only
    split
    · split <;> rfl
    · split
      · rfl
      · split <;> rfl

lemma foldl_processVisit_lastCheckTime (content : Option TB.Content.Content) (k : Nat → Bool)
    (visits : List Visit) (acc : MonitorState × List Sent) :
    (visits.foldl (processVisit content k) acc).1.stats.lastCheckTime =
      acc.1.stats.lastCheckTime := by
  induction visits generalizing acc with
  | nil => rfl
  | cons v rest ih =>
    rw [List.foldl_cons, ih]
    exact processVisit_lastCheckTime content k acc.1 acc.2 v

lemma sent_append_case {sent : List Sent} {e snt : Sent} (hmem : snt ∈ sent ++ [e]) :
    snt ∈ sent ∨ snt = e := by
  rcases List.mem_append.1 hmem with h | h
  · exact Or.inl h
  · exact Or.inr (List.mem_singleton.1 h)

lemma processVisit_sent_sub (content : Option TB.Content.Content) (k : Nat → Bool)
    (s : MonitorState) (sent : List Sent) (v : Visit) :
    ∀ snt ∈ (processVisit content k (s, sent) v).2, snt ∈ sent ∨ snt.visitId = v.idVisit := by
  intro snt
  unfold processVisit
  by_cases h : v.idVisit ∈ s.notifiedVisitIds
  · rw [if_pos h]
    exact fun hm => Or.inl hm
  · rw [if_neg h]
    dsimp only
    split
    · split
      · intro hm
        rcases sent_append_case hm with h2 | h2
        · exact Or.inl h2
        · right; rw [h2]
      · intro hm
        rcases sent_append_case hm with h2 | h2
        · exact Or.inl h2
        · right; rw [h2]
    · split
      · exact fun hm => Or.inl hm
      · split
        · intro hm
          rcases sent_append_case hm with h2 | h2
          · exact Or.inl h2
          · right; rw [h2]
        · intro hm
          rcases sent_append_case hm with h2 | h2
          · exact Or.inl h2
          · right; rw [h2]

lemma foldl_processVisit_sent_sub (content : Option TB.Content.Content) (k : Nat → Bool)
    (visits : List Visit) (acc : MonitorState × List Sent) :
    ∀ snt ∈ (visits.foldl (processVisit content k) acc).2,
      snt ∈ acc.2 ∨ ∃ w ∈ visits, snt.visitId = w.idVisit := by
  induction visits generalizing acc with
  | nil => exact fun snt hm => Or.inl hm
  | cons v rest ih =>
    intro snt hmem
    rw [List.foldl_cons] at hmem
    rcases ih (processVisit content k acc v) snt hmem with h | ⟨w, hw, hid⟩
    · rcases processVisit_sent_sub content k acc.1 acc.2 v snt h with h2 | h2
      · exact Or.inl h2
      · exact Or.inr ⟨v, List.mem_cons_self v rest, h2⟩
    · exact Or.inr ⟨w, List.mem_cons_of_mem v hw, hid⟩

lemma checkVisits_sent_ids (mv : List Visit) (e : PollEnv) (s : MonitorState) :
    ∀ snt ∈ (checkVisits mv e s).2.1,
      ∃ w ∈ getRecentVisits mv s.stats.lastCheckTime e.now, snt.visitId = w.idVisit := by
  intro snt hmem
  unfold checkVisits at hmem
  revert hmem
  dsimp only
  by_cases hf : e.fetchOk
  · simp only [hf, Bool.not_true, Bool.false_eq_true, if_false]
    by_cases hl : e.contentOk
    · simp only [hl, Bool.not_true, Bool.false_eq_true, if_false]
      intro hmem
      rcases foldl_processVisit_sent_sub e.content e.sendOk _ _ snt hmem with h | h
      · simp at h
      · exact h
    · simp only [hl, Bool.not_false, if_true]
      intro hmem
      rw [catchBranch_sent] at hmem
      simp at hmem
  · simp only [hf, Bool.not_false, if_true]
    intro hmem
    rw [catchBranch_sent] at hmem
    simp at hmem

lemma checkVisits_lastCheckTime_ge (mv : List Visit) (e : PollEnv) (s : MonitorState)
    (N : Nat) (hs : N ≤ s.stats.lastCheckTime) (he : N ≤ e.now) :
    N ≤ (checkVisits mv e s).1.stats.lastCheckTime := by
  unfold checkVisits
  dsimp only
  by_cases hf : e.fetchOk
  · simp only [hf, Bool.not_true, Bool.false_eq_true, if_false]
    by_cases hl : e.contentOk
    · simp only [hl, Bool.not_true, Bool.false_eq_true, if_false]
      rw [foldl_processVisit_lastCheckTime]
      exact he
    · simp only [hl, Bool.not_false, if_true]
      rw [catchBranch_lastCheckTime]
      exact he
  · simp only [hf, Bool.not_false, if_true]
    rw [catchBranch_lastCheckTime]
    exact hs

lemma mem_getRecentVisits {mv : List Visit} {a b : Nat} {w : Visit}
    (h : w ∈ getRecentVisits mv a b) :
    w ∈ mv ∧ a ≤ w.serverTimestamp.getD 0 ∧ w.serverTimestamp.getD 0 ≤ b := by
  unfold getRecentVisits at h
  rw [List.mem_filter] at h
  have h2 := h.2
  rw [Bool.and_eq_true, decide_eq_true_eq, decide_eq_true_eq] at h2
  exact ⟨h.1, h2.1, h2.2⟩

lemma runChecks_no_renotify (mv : List Visit) (huniq : (mv.map (fun v => v.idVisit)).Nodup)
    (v : Visit) (hv : v ∈ mv) (N : Nat) (hvt : v.serverTimestamp.getD 0 < N) :
    ∀ (envs : List PollEnv) (st : MonitorState), N ≤ st.stats.lastCheckTime →
      (∀ e ∈ envs, N ≤ e.now) →
      ∀ snt ∈ (runChecks mv envs st).2, snt.visitId ≠ v.idVisit := by
  intro envs
  induction envs with
  | nil => intro st _ _ snt hmem; simp [runChecks] at hmem
  | cons e rest ih =>
    intro st hst henvs snt hmem
    unfold runChecks at hmem
    dsimp only at hmem
    rcases List.mem_append.1 hmem with h | h
    · intro hcontra
      obtain ⟨w, hw, hid⟩ := checkVisits_sent_ids mv e st snt h
      obtain ⟨hwmem, hwlow, _⟩ := mem_getRecentVisits hw
      have hwv : w = v := List.inj_on_of_nodup_map huniq hwmem hv
        (by simpa using hid.symm.trans hcontra)
      rw [hwv] at hwlow
      omega
    · exact ih (checkVisits mv e st).1
        (checkVisits_lastCheckTime_ge mv e st N hst (henvs e (List.mem_cons_self e rest)))
        (fun e2 he2 => henvs e2 (List.mem_cons_of_mem e he2)) snt h

end TB.Analytics

namespace TB.Analytics

/-- Claim C10 (counterexample to the claim as stated): a visit timestamped
exactly at the failed check's start (time 100).  The failed check (visit
fetch ok, content load throws) enters the error handler with no
notification attempted, no id added to the notified set and lastCheckTime
already advanced to 100 — and the visit lies in that check's fetched
window — yet because services/matomo.js getRecentVisits filters the
CLOSED interval ts >= since && ts <= until, the very next check (window
100 to 200) fetches the same visit again and notifies it, so the window's
visits are not never notified by a later check. -/
theorem claim_C10_counterexample :
    (checkVisits [{ idVisit := 7, serverTimestamp := some 100 }]
        { now := 100, fetchOk := true, contentOk := false, content := none,
          sendOk := fun _ => true, adminSendOk := false }
        { notifiedVisitIds := [], stats := { lastCheckTime := 0 } }).2.1 = [] ∧
    (checkVisits [{ idVisit := 7, serverTimestamp := some 100 }]
        { now := 100, fetchOk := true, contentOk := false, content := none,
          sendOk := fun _ => true, adminSendOk := false }
        { notifiedVisitIds := [], stats := { lastCheckTime := 0 } }).1.notifiedVisitIds = [] ∧
    (checkVisits [{ idVisit := 7, serverTimestamp := some 100 }]
        { now := 100, fetchOk := true, contentOk := false, content := none,
          sendOk := fun _ => true, adminSendOk := false }
        { notifiedVisitIds := [], stats := { lastCheckTime := 0 } }).1.stats.lastCheckTime = 100 ∧
    ({ idVisit := 7, serverTimestamp := some 100 } : Visit) ∈
      getRecentVisits [{ idVisit := 7, serverTimestamp := some 100 }] 0 100 ∧
    (runChecks [{ idVisit := 7, serverTimestamp := some 100 }]
        [{ now := 100, fetchOk := true, contentOk := false, content := none,
           sendOk := fun _ => true, adminSendOk := false },
         { now := 200, fetchOk := true, contentOk := true, content := none,
           sendOk := fun _ => true, adminSendOk := false }]
        { notifiedVisitIds := [], stats := { lastCheckTime := 0 } }).2 =
      [{ visitId := 7, anonymous := true, delivered := true }] := by
  refine ⟨rfl, rfl, rfl, by decide, rfl⟩

/-- Claim C10 (amended): when a check's visit fetch succeeds but the
content load throws before the per-visit loop, the error handler is
entered with lastCheckTime already advanced to the check's start and no
visit ids added to the notified set, so the visits fetched in that window
whose timestamp is strictly before the check's start are never notified by
any later check (visit ids assumed unique as they are Matomo primary
keys); a visit timestamped exactly at the check's start is also inside the
next check's closed fetch window (ts >= since && ts <= until in
services/matomo.js getRecentVisits) and can be notified by it. -/
theorem claim_C10_failed_content_load_drops_window (mv : List Visit) (env : PollEnv)
    (s : MonitorState) (hfetch : env.fetchOk = true) (hcontent : env.contentOk = false)
    (huniq : (mv.map (fun v => v.idVisit)).Nodup) :
    failedContentLoadOutcome mv env s := by
  have hck : checkVisits mv env s = catchBranch env.adminSendOk
      { s with stats := { s.stats with
          checksPerformed := s.stats.checksPerformed + 1
          lastCheckTime := env.now } } [] := by
    unfold checkVisits
    dsimp only
    simp only [hfetch, hcontent, Bool.not_true, Bool.not_false, Bool.false_eq_true,
      if_false, if_true]
  unfold failedContentLoadOutcome
  refine ⟨?_, ?_, ?_, ?_, ?_, ?_⟩
  · rw [hck, catchBranch_sent]
  · rw [hck, catchBranch_notified]
  · rw [hck, catchBranch_lastCheckTime]
  · rw [hck, catchBranch_checksPerformed]
  · rw [hck]
    exact catchBranch_errors env.adminSendOk _ []
  · intro envs hee v hvmem hstrict snt hsnt
    obtain ⟨hvm, _, _⟩ := mem_getRecentVisits hvmem
    refine runChecks_no_renotify mv huniq v hvm env.now hstrict envs
      (checkVisits mv env s).1 ?_ hee snt hsnt
    rw [hck, catchBranch_lastCheckTime]

/-- Witness for claim C10 at a concrete input: one visit at time 50, a
check at time 100 whose fetch succeeds and whose content load throws. -/
theorem claim_C10_failed_content_load_witness :
    failedContentLoadOutcome
      [{ idVisit := 1, serverTimestamp := some 50 }]
      { now := 100, fetchOk := true, contentOk := false, content := none,
        sendOk := fun _ => true, adminSendOk := false }
      { notifiedVisitIds := [], stats := { lastCheckTime := 0 } } :=
  claim_C10_failed_content_load_drops_window
    [{ idVisit := 1, serverTimestamp := some 50 }]
    { now := 100, fetchOk := true, contentOk := false, content := none,
      sendOk := fun _ => true, adminSendOk := false }
    { notifiedVisitIds := [], stats := { lastCheckTime := 0 } }
    rfl rfl (by simp)

end TB.Analytics

namespace TB.Callbacks

/-- Claim C7 (code bug): for the confirmation token that the code's own
Confirm button generates (conf category action confirm), parseCallback
puts the category into the action slot and only the remaining segments
into data, so the handler's destructured confirmType reads the missing
fourth data entry (undefined), the comparison with "confirm" fails, and
the handler navigates back instead of executing the action; the same
happens for the enhancer tokens that append a case id.  Executing requires
an unintended five-segment token, and even then the target id slot holds
the shifted segment. -/
theorem claim_C7_confirm_token_cancels :
    generateCallback "conf" ["content", "delete", "confirm"] = "conf_content_delete_confirm" ∧
    handleConfirmationCallback "conf_content_delete_confirm" = ConfDecision.cancelled ∧
    handleConfirmationCallback "conf_content_delete_proj1" = ConfDecision.cancelled ∧
    (parseCallback "conf_content_delete_confirm").data = ["delete", "confirm"] ∧
    handleConfirmationCallback "conf_content_delete_delete_confirm" =
      ConfDecision.executeDelete "confirm" := by
  refine ⟨rfl, ?_, ?_, rfl, ?_⟩ <;> decide

end TB.Callbacks

namespace TB.Conversations

open TB.StateManager
open TB.Content

/-- Claim C1 (counterexample): running the add-case wizard with id proj_x,
title Demo and /skip for every other step commits a case_studies entry
whose skipped scalar fields are the empty string, not null; the claimed
document with desc and metrics null is not what is committed. -/
theorem claim_C1_counterexample :
    (firstUpdatedContent (runAddCase
        { getContent := Except.ok { GLOBAL_DATA := some {} }, createBackup := Except.ok (),
          updateContent := Except.ok (), showProgress := Except.ok (),
          showSuccess := Except.ok (), reply := Except.ok () }
        1 ["proj_x", "Demo", "/skip", "/skip", "/skip", "/skip", "/skip", "/skip", "/skip", "/skip"]
        (handleAddCase 1 0 Store.empty)).2).bind
      (fun c => caseStudyOf c "proj_x") =
      some { title := some "Demo", desc := some "", metrics := some "", tags := some [] } ∧
    (firstUpdatedContent (runAddCase
        { getContent := Except.ok { GLOBAL_DATA := some {} }, createBackup := Except.ok (),
          updateContent := Except.ok (), showProgress := Except.ok (),
          showSuccess := Except.ok (), reply := Except.ok () }
        1 ["proj_x", "Demo", "/skip", "/skip", "/skip", "/skip", "/skip", "/skip", "/skip", "/skip"]
        (handleAddCase 1 0 Store.empty)).2).bind
      (fun c => caseStudyOf c "proj_x") ≠
      some { title := some "Demo", desc := none, metrics := none, tags := some [] } := by
  constructor
  · rfl
  · decide

end TB.Conversations

namespace TB.Content

lemma lookup_replace_self {α : Type} (m : List (String × α)) (k : String) (v : α)
    (h : m.any (fun p => p.1 = k) = true) :
    (m.map (fun p => if p.1 = k then (k, v) else p)).lookup k = some v := by
  induction m with
  | nil => simp at h
  | cons p t ih =>
    rw [List.map_cons]
    by_cases hp : p.1 = k
    · rw [if_pos hp]
      simp [List.lookup]
    · rw [if_neg hp]
      have ht : t.any (fun q => q.1 = k) = true := by
        rw [List.any_cons] at h
        simpa [hp] using h
      have hk : (k == p.1) = false := by
        rw [beq_eq_false_iff_ne]
        intro hkk
        exact hp hkk.symm
      simp only [List.lookup, hk]
      exact ih ht

lemma lookup_append_self {α : Type} (m : List (String × α)) (k : String) (v : α)
    (h : m.any (fun p => p.1 = k) = false) :
    (m ++ [(k, v)]).lookup k = some v := by
  induction m with
  | nil => simp [List.lookup]
  | cons p t ih =>
    rw [List.any_cons] at h
    have hp : ¬ p.1 = k := by
      intro hpk
      simp [hpk] at h
    have ht : t.any (fun q => q.1 = k) = false := by
      rcases Bool.or_eq_false_iff.1 h with ⟨_, h2⟩
      exact h2
    have hk : (k == p.1) = false := by
      rw [beq_eq_false_iff_ne]
      intro hkk
      exact hp hkk.symm
    rw [List.cons_append]
    simp only [List.lookup, hk]
    exact ih ht

lemma lookup_setEntry {α : Type} (m : List (String × α)) (k : String) (v : α) :
    (setEntry m k v).lookup k = some v := by
  unfold setEntry
  by_cases h : m.any (fun p => p.1 = k)
  · rw [if_pos h]
    exact lookup_replace_self m k v h
  · rw [if_neg h]
    exact lookup_append_self m k v (Bool.not_eq_true _ ▸ eq_false_of_ne_true h)

end TB.Content

namespace TB.Conversations

open TB.StateManager
open TB.Content

/-- Claim C1 (amended): for every base content document with a GLOBAL_DATA
section and no existing proj_x case, the add-case run supplying id proj_x,
title Demo and /skip everywhere else commits case_studies.proj_x equal to
the entry with title "Demo", desc "", metrics "" and tags [] (skipped
scalar fields are stored as null in the wizard state but coerced to the
empty string by saveCaseData's or-defaults; skipped arrays stay empty). -/
theorem claim_C1_amended_skipped_scalars_empty_string (c : Content)
    (g : GlobalData) (hg : c.GLOBAL_DATA = some g)
    (hex : caseExists c "proj_x" = false) :
    (firstUpdatedContent (runAddCase
        { getContent := Except.ok c, createBackup := Except.ok (),
          updateContent := Except.ok (), showProgress := Except.ok (),
          showSuccess := Except.ok (), reply := Except.ok () }
        1 ["proj_x", "Demo", "/skip", "/skip", "/skip", "/skip", "/skip", "/skip", "/skip", "/skip"]
        (handleAddCase 1 0 Store.empty)).2).bind
      (fun cc => caseStudyOf cc "proj_x") =
      some { title := some "Demo", desc := some "", metrics := some "", tags := some [] } := by
  simp only [runAddCase, List.foldl_cons, List.foldl_nil]
  simp [handleAddCase, hasActiveState, initUserState, defaultNavContext,
    handleAddCaseConversation, wrapCatch, addCaseBody, finalStepCommit,
    handleCaseIdInput, handleGenericStep, promptNext,
    saveCaseData, updateUserState, mergeUserState, getUserState, Store.set, Store.empty,
    clearUserState, firstUpdatedContent, caseStudyOf, hex, hg, setScalar,
    jsPropKey, TB.jsOrStr, UserStateObj.empty, lookup_setEntry,
    ADD_WAITING_ID, ADD_WAITING_TITLE, ADD_WAITING_DESC, ADD_WAITING_METRICS,
    ADD_WAITING_TAGS, ADD_WAITING_CHALLENGE, ADD_WAITING_APPROACH,
    ADD_WAITING_SOLUTION, ADD_WAITING_RESULTS, ADD_WAITING_LEARNINGS]

end TB.Conversations

namespace TB.StateManager

lemma getUserState_updateUserState (u : Nat) (upd : UserStateObj) (st : Store) :
    getUserState u (updateUserState u upd st) =
      some (mergeUserState ((st u).getD UserStateObj.empty) upd) := by
  simp [updateUserState, getUserState, Store.set]

end TB.StateManager

namespace TB.Conversations

open TB.StateManager
open TB.Content

lemma wrapCatch_caught {b : Store × List Event × Except String Bool} {m : String}
    (h : (wrapCatch b).caught = some m) :
    b.2.2 = Except.error m ∧ (wrapCatch b).store = b.1 ∧
    (wrapCatch b).handled = true ∧
    Event.reply (errorReplyText m) ∈ (wrapCatch b).events := by
  obtain ⟨st2, evs, res⟩ := b
  cases res with
  | ok bb => simp [wrapCatch] at h
  | error e =>
    simp only [wrapCatch, Option.some_inj] at h
    subst h
    exact ⟨rfl, rfl, rfl, by simp [wrapCatch]⟩

lemma genericStep_error (env : ConvEnv) (u : Nat) (st : Store) (state : UserStateObj)
    (key : ScalarKey) (next : String) (isSkip : Bool) (input prompt m : String)
    (h : (handleGenericStep env u st state key next isSkip input prompt).2.2 =
      Except.error m) :
    ∃ st2, getUserState u
        (handleGenericStep env u st state key next isSkip input prompt).1 = some st2 ∧
      st2.currentStep = some next := by
  unfold handleGenericStep at h ⊢
  cases hp : env.showProgress with
  | ok _ => simp [hp] at h
  | error e =>
    dsimp only at h ⊢
    refine ⟨_, getUserState_updateUserState u _ st, ?_⟩
    simp [mergeUserState]

lemma promptNext_error (env : ConvEnv) (u : Nat) (st : Store) (state : UserStateObj)
    (next message m : String)
    (h : (promptNext env u st state next message).2.2 = Except.error m) :
    ∃ st2, getUserState u (promptNext env u st state next message).1 = some st2 ∧
      st2.currentStep = some next := by
  unfold promptNext at h ⊢
  cases hp : env.showProgress with
  | ok _ => simp [hp] at h
  | error e =>
    dsimp only at h ⊢
    refine ⟨_, getUserState_updateUserState u _ st, ?_⟩
    simp [mergeUserState]

lemma promptNextEdit_error (env : ConvEnv) (u : Nat) (st : Store) (state : UserStateObj)
    (next message m : String)
    (h : (promptNextEdit env u st state next message).2.2 = Except.error m) :
    ∃ st2, getUserState u (promptNextEdit env u st state next message).1 = some st2 ∧
      st2.currentStep = some next := by
  unfold promptNextEdit at h ⊢
  cases hp : env.showProgress with
  | ok _ => simp [hp] at h
  | error e =>
    dsimp only at h ⊢
    refine ⟨_, getUserState_updateUserState u _ st, ?_⟩
    simp [mergeUserState]

lemma caseIdInput_error (env : ConvEnv) (u : Nat) (st : Store) (state : UserStateObj)
    (input : String) (isSkip : Bool) (m : String)
    (hst : getUserState u st = some state)
    (h : (handleCaseIdInput env u st state input isSkip).2.2 = Except.error m) :
    ∃ st2, getUserState u (handleCaseIdInput env u st state input isSkip).1 = some st2 ∧
      (st2.currentStep = state.currentStep ∨ st2.currentStep = some ADD_WAITING_TITLE) := by
  unfold handleCaseIdInput at h ⊢
  cases isSkip with
  | true =>
    cases hr : env.reply with
    | ok _ => simp [hr] at h
    | error e => exact ⟨state, hst, Or.inl rfl⟩
  | false =>
    by_cases hv : isValidCaseId input
    · simp only [hv, Bool.not_true, Bool.false_eq_true, if_false, if_neg] at h ⊢
      cases hc : env.getContent with
      | error e => exact ⟨state, hst, Or.inl rfl⟩
      | ok content =>
        try rw [hc] at h
        dsimp only at h ⊢
        by_cases hce : caseExists content input
        · rw [if_pos hce] at h ⊢
          cases hr : env.reply with
          | ok _ => simp [hr] at h
          | error e => exact ⟨state, hst, Or.inl rfl⟩
        · rw [if_neg hce] at h ⊢
          cases hr : env.reply with
          | ok _ => simp [hr] at h
          | error e =>
            dsimp only at h ⊢
            refine ⟨_, getUserState_updateUserState u _ st, Or.inr ?_⟩
            simp [mergeUserState]
    · simp only [hv, Bool.not_false, if_true] at h ⊢
      cases hr : env.reply with
      | ok _ => simp [hr] at h
      | error e => exact ⟨state, hst, Or.inl rfl⟩

end TB.Conversations

namespace TB.Conversations

open TB.StateManager
open TB.Content

lemma finalStepCommit_error (u : Nat) (st2 : Store) (r : List Event × Except String Unit)
    (m : String) (h : (finalStepCommit u st2 r).2.2 = Except.error m) :
    (finalStepCommit u st2 r).1 = st2 := by
  obtain ⟨evs, res⟩ := r
  cases res with
  | ok _ => simp [finalStepCommit] at h
  | error e => rfl

/-- Claim C3 (counterexample): a generic add-case step (here the title
step) persists the advanced step before rendering the progress prompt, so
when that render throws, the exception is caught and reported but the
stored currentStep has already moved to the next step. -/
theorem claim_C3_counterexample :
    (handleAddCaseConversation
      { getContent := Except.ok {}, createBackup := Except.ok (),
        updateContent := Except.ok (), showProgress := Except.error "network down",
        showSuccess := Except.ok (), reply := Except.ok () }
      1 (Store.set Store.empty 1
        { command := some "add_case", currentStep := some ADD_WAITING_TITLE, data := some {} })
      { command := some "add_case", currentStep := some ADD_WAITING_TITLE, data := some {} }
      "hello").caught = some "network down" ∧
    Event.reply (errorReplyText "network down") ∈ (handleAddCaseConversation
      { getContent := Except.ok {}, createBackup := Except.ok (),
        updateContent := Except.ok (), showProgress := Except.error "network down",
        showSuccess := Except.ok (), reply := Except.ok () }
      1 (Store.set Store.empty 1
        { command := some "add_case", currentStep := some ADD_WAITING_TITLE, data := some {} })
      { command := some "add_case", currentStep := some ADD_WAITING_TITLE, data := some {} }
      "hello").events ∧
    (getUserState 1 (handleAddCaseConversation
      { getContent := Except.ok {}, createBackup := Except.ok (),
        updateContent := Except.ok (), showProgress := Except.error "network down",
        showSuccess := Except.ok (), reply := Except.ok () }
      1 (Store.set Store.empty 1
        { command := some "add_case", currentStep := some ADD_WAITING_TITLE, data := some {} })
      { command := some "add_case", currentStep := some ADD_WAITING_TITLE, data := some {} }
      "hello").store).map (fun s2 => s2.currentStep) = some (some ADD_WAITING_DESC) ∧
    ADD_WAITING_DESC ≠ ADD_WAITING_TITLE := by
  refine ⟨rfl, ?_, rfl, by decide⟩
  simp [handleAddCaseConversation, wrapCatch, addCaseBody, handleGenericStep,
    ADD_WAITING_ID, ADD_WAITING_TITLE]

end TB.Conversations


namespace TB.Conversations

open TB.StateManager
open TB.Content

/-- Claim C3 (amended): any exception while processing an add-case or
edit-case conversation step is caught, the handler reports an escaped
error message and returns handled; but the stored currentStep is only
guaranteed to be the same step or the immediately following one: the
generic and prompt steps persist the next step before rendering the
progress prompt, so a render failure leaves the stored step already
advanced, while exceptions raised before the state update (id validation,
content load, final save) leave it unchanged. -/
theorem claim_C3_amended_exception_caught_step_at_most_next :
    (∀ (env : ConvEnv) (u : Nat) (st : Store) (state : UserStateObj) (input s : String),
      getUserState u st = some state → state.currentStep = some s → s ∈ addCaseSteps →
      ∀ m, (handleAddCaseConversation env u st state input).caught = some m →
        (handleAddCaseConversation env u st state input).handled = true ∧
        Event.reply (errorReplyText m) ∈ (handleAddCaseConversation env u st state input).events ∧
        ∃ st2, getUserState u (handleAddCaseConversation env u st state input).store = some st2 ∧
          (st2.currentStep = some s ∨ st2.currentStep = addNextStep s)) ∧
    (∀ (env : ConvEnv) (u : Nat) (st : Store) (state : UserStateObj) (input s : String),
      getUserState u st = some state → state.currentStep = some s → s ∈ editCaseSteps →
      ∀ m, (handleEditCaseConversation env u st state input).caught = some m →
        (handleEditCaseConversation env u st state input).handled = true ∧
        Event.reply (errorReplyText m) ∈ (handleEditCaseConversation env u st state input).events ∧
        ∃ st2, getUserState u (handleEditCaseConversation env u st state input).store = some st2 ∧
          (st2.currentStep = some s ∨ st2.currentStep = editNextStep s)) := by
  constructor
  · intro env u st state input s hst hstep hs m hm
    simp only [handleAddCaseConversation] at hm ⊢
    obtain ⟨hbody, hstore, hhandled, hmem⟩ := wrapCatch_caught hm
    refine ⟨hhandled, hmem, ?_⟩
    rw [hstore]
    simp only [addCaseSteps, List.mem_cons, List.not_mem_nil, or_false] at hs
    rcases hs with rfl | rfl | rfl | rfl | rfl | rfl | rfl | rfl | rfl | rfl
    · simp only [addCaseBody, hstep, ADD_WAITING_ID, ADD_WAITING_TITLE, ADD_WAITING_DESC,
        ADD_WAITING_METRICS, ADD_WAITING_TAGS, ADD_WAITING_CHALLENGE, ADD_WAITING_APPROACH,
        ADD_WAITING_SOLUTION, ADD_WAITING_RESULTS, ADD_WAITING_LEARNINGS,
        Option.some.injEq, String.reduceEq, if_true, if_false] at hbody ⊢
      obtain ⟨st2, hg, hd⟩ := caseIdInput_error env u st state input _ m hst hbody
      refine ⟨st2, hg, ?_⟩
      rcases hd with hd | hd
      · exact Or.inl (hd.trans hstep)
      · exact Or.inr (hd.trans rfl)
    · simp only [addCaseBody, hstep, ADD_WAITING_ID, ADD_WAITING_TITLE, ADD_WAITING_DESC,
        ADD_WAITING_METRICS, ADD_WAITING_TAGS, ADD_WAITING_CHALLENGE, ADD_WAITING_APPROACH,
        ADD_WAITING_SOLUTION, ADD_WAITING_RESULTS, ADD_WAITING_LEARNINGS,
        Option.some.injEq, String.reduceEq, if_true, if_false] at hbody ⊢
      obtain ⟨st2, hg, hd⟩ := genericStep_error env u st state _ _ _ input _ m hbody
      exact ⟨st2, hg, Or.inr (hd.trans rfl)⟩
    · simp only [addCaseBody, hstep, ADD_WAITING_ID, ADD_WAITING_TITLE, ADD_WAITING_DESC,
        ADD_WAITING_METRICS, ADD_WAITING_TAGS, ADD_WAITING_CHALLENGE, ADD_WAITING_APPROACH,
        ADD_WAITING_SOLUTION, ADD_WAITING_RESULTS, ADD_WAITING_LEARNINGS,
        Option.some.injEq, String.reduceEq, if_true, if_false] at hbody ⊢
      obtain ⟨st2, hg, hd⟩ := genericStep_error env u st state _ _ _ input _ m hbody
      exact ⟨st2, hg, Or.inr (hd.trans rfl)⟩
    · simp only [addCaseBody, hstep, ADD_WAITING_ID, ADD_WAITING_TITLE, ADD_WAITING_DESC,
        ADD_WAITING_METRICS, ADD_WAITING_TAGS, ADD_WAITING_CHALLENGE, ADD_WAITING_APPROACH,
        ADD_WAITING_SOLUTION, ADD_WAITING_RESULTS, ADD_WAITING_LEARNINGS,
        Option.some.injEq, String.reduceEq, if_true, if_false] at hbody ⊢
      obtain ⟨st2, hg, hd⟩ := genericStep_error env u st state _ _ _ input _ m hbody
      exact ⟨st2, hg, Or.inr (hd.trans rfl)⟩
    · simp only [addCaseBody, hstep, ADD_WAITING_ID, ADD_WAITING_TITLE, ADD_WAITING_DESC,
        ADD_WAITING_METRICS, ADD_WAITING_TAGS, ADD_WAITING_CHALLENGE, ADD_WAITING_APPROACH,
        ADD_WAITING_SOLUTION, ADD_WAITING_RESULTS, ADD_WAITING_LEARNINGS,
        Option.some.injEq, String.reduceEq, if_true, if_false] at hbody ⊢
      obtain ⟨st2, hg, hd⟩ := promptNext_error env u st _ _ _ m hbody
      exact ⟨st2, hg, Or.inr (hd.trans rfl)⟩
    · simp only [addCaseBody, hstep, ADD_WAITING_ID, ADD_WAITING_TITLE, ADD_WAITING_DESC,
        ADD_WAITING_METRICS, ADD_WAITING_TAGS, ADD_WAITING_CHALLENGE, ADD_WAITING_APPROACH,
        ADD_WAITING_SOLUTION, ADD_WAITING_RESULTS, ADD_WAITING_LEARNINGS,
        Option.some.injEq, String.reduceEq, if_true, if_false] at hbody ⊢
      obtain ⟨st2, hg, hd⟩ := genericStep_error env u st state _ _ _ input _ m hbody
      exact ⟨st2, hg, Or.inr (hd.trans rfl)⟩
    · simp only [addCaseBody, hstep, ADD_WAITING_ID, ADD_WAITING_TITLE, ADD_WAITING_DESC,
        ADD_WAITING_METRICS, ADD_WAITING_TAGS, ADD_WAITING_CHALLENGE, ADD_WAITING_APPROACH,
        ADD_WAITING_SOLUTION, ADD_WAITING_RESULTS, ADD_WAITING_LEARNINGS,
        Option.some.injEq, String.reduceEq, if_true, if_false] at hbody ⊢
      obtain ⟨st2, hg, hd⟩ := promptNext_error env u st _ _ _ m hbody
      exact ⟨st2, hg, Or.inr (hd.trans rfl)⟩
    · simp only [addCaseBody, hstep, ADD_WAITING_ID, ADD_WAITING_TITLE, ADD_WAITING_DESC,
        ADD_WAITING_METRICS, ADD_WAITING_TAGS, ADD_WAITING_CHALLENGE, ADD_WAITING_APPROACH,
        ADD_WAITING_SOLUTION, ADD_WAITING_RESULTS, ADD_WAITING_LEARNINGS,
        Option.some.injEq, String.reduceEq, if_true, if_false] at hbody ⊢
      obtain ⟨st2, hg, hd⟩ := genericStep_error env u st state _ _ _ input _ m hbody
      exact ⟨st2, hg, Or.inr (hd.trans rfl)⟩
    · simp only [addCaseBody, hstep, ADD_WAITING_ID, ADD_WAITING_TITLE, ADD_WAITING_DESC,
        ADD_WAITING_METRICS, ADD_WAITING_TAGS, ADD_WAITING_CHALLENGE, ADD_WAITING_APPROACH,
        ADD_WAITING_SOLUTION, ADD_WAITING_RESULTS, ADD_WAITING_LEARNINGS,
        Option.some.injEq, String.reduceEq, if_true, if_false] at hbody ⊢
      obtain ⟨st2, hg, hd⟩ := promptNext_error env u st _ _ _ m hbody
      exact ⟨st2, hg, Or.inr (hd.trans rfl)⟩
    · simp only [addCaseBody, hstep, ADD_WAITING_ID, ADD_WAITING_TITLE, ADD_WAITING_DESC,
        ADD_WAITING_METRICS, ADD_WAITING_TAGS, ADD_WAITING_CHALLENGE, ADD_WAITING_APPROACH,
        ADD_WAITING_SOLUTION, ADD_WAITING_RESULTS, ADD_WAITING_LEARNINGS,
        Option.some.injEq, String.reduceEq, if_true, if_false] at hbody ⊢
      rw [finalStepCommit_error _ _ _ m hbody]
      refine ⟨_, getUserState_updateUserState u _ st, Or.inl ?_⟩
      simp [mergeUserState, hstep]
  · intro env u st state input s hst hstep hs m hm
    simp only [handleEditCaseConversation] at hm ⊢
    obtain ⟨hbody, hstore, hhandled, hmem⟩ := wrapCatch_caught hm
    refine ⟨hhandled, hmem, ?_⟩
    rw [hstore]
    simp only [editCaseSteps, List.mem_cons, List.not_mem_nil, or_false] at hs
    rcases hs with rfl | rfl | rfl | rfl | rfl | rfl | rfl | rfl | rfl
    · simp only [editCaseBody, hstep, EDIT_WAITING_TITLE, EDIT_WAITING_DESC, EDIT_WAITING_METRICS,
        EDIT_WAITING_TAGS, EDIT_WAITING_CHALLENGE, EDIT_WAITING_APPROACH,
        EDIT_WAITING_SOLUTION, EDIT_WAITING_RESULTS, EDIT_WAITING_LEARNINGS,
        Option.some.injEq, String.reduceEq, if_true, if_false] at hbody ⊢
      obtain ⟨st2, hg, hd⟩ := promptNextEdit_error env u st _ _ _ m hbody
      exact ⟨st2, hg, Or.inr (hd.trans rfl)⟩
    · simp only [editCaseBody, hstep, EDIT_WAITING_TITLE, EDIT_WAITING_DESC, EDIT_WAITING_METRICS,
        EDIT_WAITING_TAGS, EDIT_WAITING_CHALLENGE, EDIT_WAITING_APPROACH,
        EDIT_WAITING_SOLUTION, EDIT_WAITING_RESULTS, EDIT_WAITING_LEARNINGS,
        Option.some.injEq, String.reduceEq, if_true, if_false] at hbody ⊢
      obtain ⟨st2, hg, hd⟩ := promptNextEdit_error env u st _ _ _ m hbody
      exact ⟨st2, hg, Or.inr (hd.trans rfl)⟩
    · simp only [editCaseBody, hstep, EDIT_WAITING_TITLE, EDIT_WAITING_DESC, EDIT_WAITING_METRICS,
        EDIT_WAITING_TAGS, EDIT_WAITING_CHALLENGE, EDIT_WAITING_APPROACH,
        EDIT_WAITING_SOLUTION, EDIT_WAITING_RESULTS, EDIT_WAITING_LEARNINGS,
        Option.some.injEq, String.reduceEq, if_true, if_false] at hbody ⊢
      obtain ⟨st2, hg, hd⟩ := promptNextEdit_error env u st _ _ _ m hbody
      exact ⟨st2, hg, Or.inr (hd.trans rfl)⟩
    · simp only [editCaseBody, hstep, EDIT_WAITING_TITLE, EDIT_WAITING_DESC, EDIT_WAITING_METRICS,
        EDIT_WAITING_TAGS, EDIT_WAITING_CHALLENGE, EDIT_WAITING_APPROACH,
        EDIT_WAITING_SOLUTION, EDIT_WAITING_RESULTS, EDIT_WAITING_LEARNINGS,
        Option.some.injEq, String.reduceEq, if_true, if_false] at hbody ⊢
      obtain ⟨st2, hg, hd⟩ := promptNextEdit_error env u st _ _ _ m hbody
      exact ⟨st2, hg, Or.inr (hd.trans rfl)⟩
    · simp only [editCaseBody, hstep, EDIT_WAITING_TITLE, EDIT_WAITING_DESC, EDIT_WAITING_METRICS,
        EDIT_WAITING_TAGS, EDIT_WAITING_CHALLENGE, EDIT_WAITING_APPROACH,
        EDIT_WAITING_SOLUTION, EDIT_WAITING_RESULTS, EDIT_WAITING_LEARNINGS,
        Option.some.injEq, String.reduceEq, if_true, if_false] at hbody ⊢
      obtain ⟨st2, hg, hd⟩ := promptNextEdit_error env u st _ _ _ m hbody
      exact ⟨st2, hg, Or.inr (hd.trans rfl)⟩
    · simp only [editCaseBody, hstep, EDIT_WAITING_TITLE, EDIT_WAITING_DESC, EDIT_WAITING_METRICS,
        EDIT_WAITING_TAGS, EDIT_WAITING_CHALLENGE, EDIT_WAITING_APPROACH,
        EDIT_WAITING_SOLUTION, EDIT_WAITING_RESULTS, EDIT_WAITING_LEARNINGS,
        Option.some.injEq, String.reduceEq, if_true, if_false] at hbody ⊢
      obtain ⟨st2, hg, hd⟩ := promptNextEdit_error env u st _ _ _ m hbody
      exact ⟨st2, hg, Or.inr (hd.trans rfl)⟩
    · simp only [editCaseBody, hstep, EDIT_WAITING_TITLE, EDIT_WAITING_DESC, EDIT_WAITING_METRICS,
        EDIT_WAITING_TAGS, EDIT_WAITING_CHALLENGE, EDIT_WAITING_APPROACH,
        EDIT_WAITING_SOLUTION, EDIT_WAITING_RESULTS, EDIT_WAITING_LEARNINGS,
        Option.some.injEq, String.reduceEq, if_true, if_false] at hbody ⊢
      obtain ⟨st2, hg, hd⟩ := promptNextEdit_error env u st _ _ _ m hbody
      exact ⟨st2, hg, Or.inr (hd.trans rfl)⟩
    · simp only [editCaseBody, hstep, EDIT_WAITING_TITLE, EDIT_WAITING_DESC, EDIT_WAITING_METRICS,
        EDIT_WAITING_TAGS, EDIT_WAITING_CHALLENGE, EDIT_WAITING_APPROACH,
        EDIT_WAITING_SOLUTION, EDIT_WAITING_RESULTS, EDIT_WAITING_LEARNINGS,
        Option.some.injEq, String.reduceEq, if_true, if_false] at hbody ⊢
      obtain ⟨st2, hg, hd⟩ := promptNextEdit_error env u st _ _ _ m hbody
      exact ⟨st2, hg, Or.inr (hd.trans rfl)⟩
    · simp only [editCaseBody, hstep, EDIT_WAITING_TITLE, EDIT_WAITING_DESC, EDIT_WAITING_METRICS,
        EDIT_WAITING_TAGS, EDIT_WAITING_CHALLENGE, EDIT_WAITING_APPROACH,
        EDIT_WAITING_SOLUTION, EDIT_WAITING_RESULTS, EDIT_WAITING_LEARNINGS,
        Option.some.injEq, String.reduceEq, if_true, if_false] at hbody ⊢
      rw [finalStepCommit_error _ _ _ m hbody]
      by_cases hk : input = "/keep"
      · rw [if_pos hk]
        exact ⟨state, hst, Or.inl hstep⟩
      · rw [if_neg hk, if_neg hk]
        refine ⟨_, getUserState_updateUserState u _ st, Or.inl ?_⟩
        simp [mergeUserState, hstep]

end TB.Conversations

namespace TB.Conversations

open TB.StateManager

/-- Witness for the amended claim C3 at a concrete input: a title-step
message whose progress render throws is caught, reported, and the stored
step is the same or the next one. -/
theorem claim_C3_amended_witness :
    (handleAddCaseConversation
      { getContent := Except.ok {}, createBackup := Except.ok (),
        updateContent := Except.ok (), showProgress := Except.error "network down",
        showSuccess := Except.ok (), reply := Except.ok () }
      1 (Store.set Store.empty 1
        { command := some "add_case", currentStep := some ADD_WAITING_TITLE, data := some {} })
      { command := some "add_case", currentStep := some ADD_WAITING_TITLE, data := some {} }
      "hello").handled = true ∧
    Event.reply (errorReplyText "network down") ∈ (handleAddCaseConversation
      { getContent := Except.ok {}, createBackup := Except.ok (),
        updateContent := Except.ok (), showProgress := Except.error "network down",
        showSuccess := Except.ok (), reply := Except.ok () }
      1 (Store.set Store.empty 1
        { command := some "add_case", currentStep := some ADD_WAITING_TITLE, data := some {} })
      { command := some "add_case", currentStep := some ADD_WAITING_TITLE, data := some {} }
      "hello").events ∧
    ∃ st2, getUserState 1 (handleAddCaseConversation
      { getContent := Except.ok {}, createBackup := Except.ok (),
        updateContent := Except.ok (), showProgress := Except.error "network down",
        showSuccess := Except.ok (), reply := Except.ok () }
      1 (Store.set Store.empty 1
        { command := some "add_case", currentStep := some ADD_WAITING_TITLE, data := some {} })
      { command := some "add_case", currentStep := some ADD_WAITING_TITLE, data := some {} }
      "hello").store = some st2 ∧
      (st2.currentStep = some ADD_WAITING_TITLE ∨ st2.currentStep = addNextStep ADD_WAITING_TITLE) :=
  claim_C3_amended_exception_caught_step_at_most_next.1
    { getContent := Except.ok {}, createBackup := Except.ok (),
      updateContent := Except.ok (), showProgress := Except.error "network down",
      showSuccess := Except.ok (), reply := Except.ok () }
    1 (Store.set Store.empty 1
      { command := some "add_case", currentStep := some ADD_WAITING_TITLE, data := some {} })
    { command := some "add_case", currentStep := some ADD_WAITING_TITLE, data := some {} }
    "hello" ADD_WAITING_TITLE rfl rfl (by decide) "network down" rfl

end TB.Conversations

namespace TB.Conversations

open TB.StateManager
open TB.Content

/-- Witness for the amended claim C1 at a concrete input: an empty content
document with an empty GLOBAL_DATA section. -/
theorem claim_C1_amended_witness :
    (firstUpdatedContent (runAddCase
        { getContent := Except.ok { GLOBAL_DATA := some {} }, createBackup := Except.ok (),
          updateContent := Except.ok (), showProgress := Except.ok (),
          showSuccess := Except.ok (), reply := Except.ok () }
        1 ["proj_x", "Demo", "/skip", "/skip", "/skip", "/skip", "/skip", "/skip", "/skip", "/skip"]
        (handleAddCase 1 0 Store.empty)).2).bind
      (fun cc => caseStudyOf cc "proj_x") =
      some { title := some "Demo", desc := some "", metrics := some "", tags := some [] } :=
  claim_C1_amended_skipped_scalars_empty_string { GLOBAL_DATA := some {} } {} rfl rfl

end TB.Conversations
